import Mathlib

/-!
Shallow embedding of the MedGPT-X image feature extraction and heuristic
classification engine. The clinical profile lives in
src/utils/clinicalImageAnalysis.ts and the perfect profile in src/App.tsx.
JavaScript numbers are modelled as exact rationals; the divisions by a pixel
count that JavaScript leaves unguarded (0/0 = NaN) are modelled as Option
values, with none standing for NaN, and comparisons against NaN are false, as
in JavaScript. Math.sqrt (used only by the contrast normalization) is modelled
by the exact real square root; every comparison of the contrast against a
rational threshold is evaluated through an equivalent decidable comparison of
squares, proved equivalent below (contrastGtB_iff, contrastLtB_iff).
-/

set_option maxRecDepth 100000

/- The Batteries rational arithmetic is marked irreducible, which blocks the
decide tactic on any concrete rational computation; the kernel itself reduces
these definitions fine, so restore their default reducibility for this
development. This has no effect on soundness. -/
set_option allowUnsafeReducibility true in
attribute [semireducible] Rat.add Rat.mul Rat.inv Rat.sub Rat.ofScientific

/-- One RGBA pixel of a decoded buffer (a Uint8ClampedArray holds values in
0..255; none of the theorems below need that bound, so the fields are plain
naturals). -/
structure Pixel where
  r : ℕ
  g : ℕ
  b : ℕ
  a : ℕ
deriving DecidableEq

/-- JavaScript Math.round: round half away from zero; for the nonnegative
values of this code base, floor of x + 1/2. -/
def jsRound (q : ℚ) : ℤ := ⌊q + 1/2⌋

/-- Rounded brightness Math.round((r+g+b)/3) used by the visual analyzer and
the histogram. For naturals this equals (r+g+b+1)/3 in natural division
(lemma brightN_eq_jsRound below). -/
def brightN (p : Pixel) : ℕ := (p.r + p.g + p.b + 1) / 3

/-- Unrounded brightness (r+g+b)/3 used by the structural and texture
analyzers. -/
def brightQ (p : Pixel) : ℚ := ((p.r : ℚ) + p.g + p.b) / 3

/-- Division producing NaN (none) when the denominator is zero, as the
JavaScript a / totalPixels does on an empty buffer. -/
def jsDivN (a : ℚ) (n : ℕ) : Option ℚ := if n = 0 then none else some (a / n)

/-- NaN-aware strict greater-than: v > c is false when v is NaN. -/
def oGT (o : Option ℚ) (c : ℚ) : Bool :=
  match o with
  | none => false
  | some v => decide (c < v)

/-- NaN-aware strict less-than: v < c is false when v is NaN. -/
def oLT (o : Option ℚ) (c : ℚ) : Bool :=
  match o with
  | none => false
  | some v => decide (v < c)

/-- NaN-aware at-least comparison. -/
def oGE (o : Option ℚ) (c : ℚ) : Bool :=
  match o with
  | none => false
  | some v => decide (c ≤ v)

/-- NaN-aware at-most comparison. -/
def oLE (o : Option ℚ) (c : ℚ) : Bool :=
  match o with
  | none => false
  | some v => decide (v ≤ c)

/-- Indices 0, step, 2·step, ... below n: the JavaScript loop
for (i = 0; i < n; i += step). -/
def stepRange (n step : ℕ) : List ℕ := (List.range n).filter (fun i => i % step = 0)

/-- Indices start, start+step, ... below n: the JavaScript loop
for (i = start; i < n; i += step). -/
def stepRangeFrom (start n step : ℕ) : List ℕ :=
  (List.range n).filter (fun i => decide (start ≤ i) && decide ((i - start) % step = 0))

/-- Brightness of the pixel at linear index i, none when the index is out of
bounds (the source guards every such access with an index-versus-length
check). -/
def brightnessAt (px : List Pixel) (i : ℕ) : Option ℚ := (px.get? i).map brightQ

/-- The 256-bucket brightness histogram of performAdvancedVisualAnalysis and
analyzeVisualCharacteristicsPerfect: bucket v counts the pixels of rounded
brightness v. -/
def histogramOf (px : List Pixel) : List ℕ :=
  (List.range 256).map (fun v => px.countP (fun p => decide (brightN p = v)))

/-- Sum of all histogram buckets (the total of calculateClinicalContrast). -/
def histTotal (hist : List ℕ) : ℕ := hist.sum

/-- Histogram mean: sum of count·index over the total. -/
def histMean (hist : List ℕ) : ℚ :=
  ((hist.enum.map (fun ic => (ic.2 : ℚ) * ic.1)).sum) / histTotal hist

/-- The value under the square root in calculateClinicalContrast (and the
identical calculateContrastPerfect): the population variance of the histogram,
0 when the histogram is empty. The source then returns
min(sqrt(variance)/128, 1); contrastVal applies that final step. -/
def calculateClinicalContrastU (hist : List ℕ) : ℚ :=
  if histTotal hist = 0 then 0
  else ((hist.enum.map (fun ic => (ic.2 : ℚ) * (ic.1 - histMean hist) ^ 2)).sum) / histTotal hist

/-- The contrast value min(sqrt(variance)/128, 1) returned by
calculateClinicalContrast on a histogram of variance u. -/
noncomputable def contrastVal (u : ℚ) : ℝ := min (Real.sqrt u / 128) 1

/-- Decidable form of contrastVal u > c (proved equivalent in
contrastGtB_iff): for 0 ≤ c it is c < 1 and (128·c)² < u. -/
def contrastGtB (u c : ℚ) : Bool :=
  decide (c < 0) || (decide (c < 1) && decide (16384 * c ^ 2 < u))

/-- Decidable form of contrastVal u < c (proved equivalent in
contrastLtB_iff). -/
def contrastLtB (u c : ℚ) : Bool :=
  (decide (0 < c) && decide (u < 16384 * c ^ 2)) || decide (1 < c)

/-- The pathologyIndicators record computed at the end of
performAdvancedVisualAnalysis (clinical profile). -/
structure PathologyIndicators where
  pneumonia : Bool
  atelectasis : Bool
  cardiomegaly : Bool
  pleural_effusion : Bool
  normal_chest : Bool
deriving DecidableEq

/-- The clinicalFeatures record computed at the end of
performAdvancedVisualAnalysis (clinical profile). -/
structure ClinicalFeatures where
  isDark : Bool
  isBright : Bool
  isMedium : Bool
  hasHighContrast : Bool
  hasClinicalContrast : Bool
  hasLowContrast : Bool
  isHighDetail : Bool
  isClinicalDetail : Bool
  isLowDetail : Bool
deriving DecidableEq

/-- Output of performAdvancedVisualAnalysis. contrastU carries the variance
feeding the contrast (the actual contrast is contrastVal contrastU); the
fields divided by the pixel count are Options, none = NaN on an empty
buffer. The rgbChannels arrays of the source are dead (never read) and are
omitted. -/
structure VisualAnalysis where
  brightness : Option ℚ
  contrastU : ℚ
  edgeDensity : Option ℚ
  darkRatio : Option ℚ
  brightRatio : Option ℚ
  mediumRatio : Option ℚ
  pathologyIndicators : PathologyIndicators
  clinicalFeatures : ClinicalFeatures
deriving DecidableEq

/-- Number of linearly adjacent pixel pairs whose red channels differ by more
than thr (the edge detector comparing pixels[i] with pixels[i+4]). -/
def edgeCount (px : List Pixel) (thr : ℕ) : ℕ :=
  (px.zip px.tail).countP (fun pq => decide (thr < ((pq.1.r : ℤ) - pq.2.r).natAbs))

/-- performAdvancedVisualAnalysis (clinical profile): one pass over the
pixels accumulating the histogram, total brightness, dark (< 50) / bright
(> 200) / medium band counts and the edge count (threshold 30), then the
derived ratios, pathology indicators and clinical feature flags. -/
def performAdvancedVisualAnalysis (px : List Pixel) : VisualAnalysis :=
  let n := px.length
  let hist := histogramOf px
  let totalB : ℚ := (px.map (fun p => (brightN p : ℚ))).sum
  let darkC := px.countP (fun p => decide (brightN p < 50))
  let brightC := px.countP (fun p => !decide (brightN p < 50) && decide (200 < brightN p))
  let mediumC := px.countP (fun p => !decide (brightN p < 50) && !decide (200 < brightN p))
  let u := calculateClinicalContrastU hist
  let avgB := jsDivN totalB n
  let eD := jsDivN (edgeCount px 30) n
  let dR := jsDivN darkC n
  let bR := jsDivN brightC n
  let mR := jsDivN mediumC n
  { brightness := avgB
    contrastU := u
    edgeDensity := eD
    darkRatio := dR
    brightRatio := bR
    mediumRatio := mR
    pathologyIndicators :=
      { pneumonia := oLT dR 0.6 && contrastGtB u 0.4
        atelectasis := oGT dR 0.7 && oGT eD 0.3
        cardiomegaly := oGT mR 0.4 && oGT avgB 100
        pleural_effusion := oGT dR 0.8 && contrastLtB u 0.3
        normal_chest := oGT dR 0.6 && oLT dR 0.8 && contrastGtB u 0.3 }
    clinicalFeatures :=
      { isDark := oLT avgB 80
        isBright := oGT avgB 180
        isMedium := oGE avgB 80 && oLE avgB 180
        hasHighContrast := contrastGtB u 0.6
        hasClinicalContrast := contrastGtB u 0.3 && !contrastGtB u 0.6
        hasLowContrast := !contrastGtB u 0.3
        isHighDetail := oGT eD 0.4
        isClinicalDetail := oGT eD 0.2 && oLE eD 0.4
        isLowDetail := oLE eD 0.2 } }

/-- Output of analyzeVisualCharacteristicsPerfect (perfect profile,
src/App.tsx): same shape with a flat record and thresholds dark < 60 and edge
difference > 25. -/
structure VisualPerfect where
  brightness : Option ℚ
  contrastU : ℚ
  edgeDensity : Option ℚ
  darkRatio : Option ℚ
  brightRatio : Option ℚ
  mediumRatio : Option ℚ
  isDark : Bool
  isBright : Bool
  isMedium : Bool
  hasHighContrast : Bool
  hasMediumContrast : Bool
  hasLowContrast : Bool
  isHighDetail : Bool
  isMediumDetail : Bool
  isLowDetail : Bool
deriving DecidableEq

/-- analyzeVisualCharacteristicsPerfect (perfect profile): dark band < 60,
edge threshold 25, contrast body identical to the clinical one. -/
def analyzeVisualCharacteristicsPerfect (px : List Pixel) : VisualPerfect :=
  let n := px.length
  let hist := histogramOf px
  let totalB : ℚ := (px.map (fun p => (brightN p : ℚ))).sum
  let darkC := px.countP (fun p => decide (brightN p < 60))
  let brightC := px.countP (fun p => !decide (brightN p < 60) && decide (200 < brightN p))
  let mediumC := px.countP (fun p => !decide (brightN p < 60) && !decide (200 < brightN p))
  let u := calculateClinicalContrastU hist
  let avgB := jsDivN totalB n
  let eD := jsDivN (edgeCount px 25) n
  { brightness := avgB
    contrastU := u
    edgeDensity := eD
    darkRatio := jsDivN darkC n
    brightRatio := jsDivN brightC n
    mediumRatio := jsDivN mediumC n
    isDark := oLT avgB 80
    isBright := oGT avgB 180
    isMedium := oGE avgB 80 && oLE avgB 180
    hasHighContrast := contrastGtB u 0.6
    hasMediumContrast := contrastGtB u 0.3 && !contrastGtB u 0.6
    hasLowContrast := !contrastGtB u 0.3
    isHighDetail := oGT eD 0.4
    isMediumDetail := oGT eD 0.2 && oLE eD 0.4
    isLowDetail := oLE eD 0.2 }

/-- The anatomicalFeatures record of analyzeAnatomicalStructure (clinical
profile). -/
structure AnatomicalFeatures where
  isChestXray : Bool
  isBrainMRI : Bool
  isCTScan : Bool
  isSpineXray : Bool
  isMammography : Bool
deriving DecidableEq

/-- The clinicalPositioning record of analyzeAnatomicalStructure. -/
structure ClinicalPositioning where
  isCentered : Bool
  hasGoodSymmetry : Bool
  hasClinicalSymmetry : Bool
  hasPoorSymmetry : Bool
deriving DecidableEq

/-- Output of analyzeAnatomicalStructure (clinical profile). -/
structure StructuralAnalysis where
  aspectRatio : ℚ
  centerMassX : ℚ
  centerMassY : ℚ
  bilateralSymmetry : ℚ
  verticalSymmetry : ℚ
  anatomicalFeatures : AnatomicalFeatures
  clinicalPositioning : ClinicalPositioning
deriving DecidableEq

/-- Sum of x·mass over the stride-2 grid, mass = brightness squared
(center-of-mass accumulation; out-of-range indices are skipped by the
index < pixels.length guard). -/
def centerMassXSum (px : List Pixel) (w h : ℕ) : ℚ :=
  ((stepRange h 2).map (fun y =>
    ((stepRange w 2).map (fun x =>
      match brightnessAt px (y * w + x) with
      | some b => (x : ℚ) * (b * b)
      | none => 0)).sum)).sum

/-- Sum of y·mass over the stride-2 grid. -/
def centerMassYSum (px : List Pixel) (w h : ℕ) : ℚ :=
  ((stepRange h 2).map (fun y =>
    ((stepRange w 2).map (fun x =>
      match brightnessAt px (y * w + x) with
      | some b => (y : ℚ) * (b * b)
      | none => 0)).sum)).sum

/-- Total mass over the stride-2 grid. -/
def totalMassSum (px : List Pixel) (w h : ℕ) : ℚ :=
  ((stepRange h 2).map (fun y =>
    ((stepRange w 2).map (fun x =>
      match brightnessAt px (y * w + x) with
      | some b => b * b
      | none => 0)).sum)).sum

/-- Similarity of the pixel at (y, x) with its horizontal mirror at
(y, w-1-x): max(0, 255 - |difference|)/255, none when either index is out of
bounds (the leftIndex/rightIndex < pixels.length guards). -/
def bilatSimAt (px : List Pixel) (w y x : ℕ) : Option ℚ :=
  match brightnessAt px (y * w + x), brightnessAt px (y * w + (w - 1 - x)) with
  | some l, some r => some (max 0 (255 - |l - r|) / 255)
  | _, _ => none

/-- Similarity of the pixel at (y, x) with its vertical mirror at
(h-1-y, x). -/
def vertSimAt (px : List Pixel) (w h x y : ℕ) : Option ℚ :=
  match brightnessAt px (y * w + x), brightnessAt px ((h - 1 - y) * w + x) with
  | some t, some b => some (max 0 (255 - |t - b|) / 255)
  | _, _ => none

/-- Shared body of the left-right symmetry scorers: mean mirror similarity
over rows 0, step, ... and columns 0, step, ... below floor(w/2); 0 when no
pair was compared. The clinical profile uses step 2
(calculateBilateralSymmetry), the perfect profile step 3
(calculateSymmetryPerfect). -/
def bilateralCore (px : List Pixel) (w h step : ℕ) : ℚ :=
  let cells := ((stepRange h step).map (fun y =>
    (stepRange (w / 2) step).map (fun x => bilatSimAt px w y x))).flatten
  let comps := cells.countP (fun o => o.isSome)
  let score := (cells.map (fun o => o.getD 0)).sum
  if 0 < comps then score / comps else 0

/-- calculateBilateralSymmetry (clinical profile, stride 2). -/
def calculateBilateralSymmetry (px : List Pixel) (w h : ℕ) : ℚ := bilateralCore px w h 2

/-- calculateSymmetryPerfect (perfect profile, stride 3). -/
def calculateSymmetryPerfect (px : List Pixel) (w h : ℕ) : ℚ := bilateralCore px w h 3

/-- Shared body of the top-bottom symmetry scorers. -/
def verticalCore (px : List Pixel) (w h step : ℕ) : ℚ :=
  let cells := ((stepRange w step).map (fun x =>
    (stepRange (h / 2) step).map (fun y => vertSimAt px w h x y))).flatten
  let comps := cells.countP (fun o => o.isSome)
  let score := (cells.map (fun o => o.getD 0)).sum
  if 0 < comps then score / comps else 0

/-- calculateVerticalSymmetry (clinical profile, stride 2). -/
def calculateVerticalSymmetry (px : List Pixel) (w h : ℕ) : ℚ := verticalCore px w h 2

/-- analyzeAnatomicalStructure (clinical profile): aspect ratio, brightness
squared weighted center of mass (normalized when the total mass is positive),
the two symmetry scores and the derived anatomical flags. -/
def analyzeAnatomicalStructure (px : List Pixel) (w h : ℕ) : StructuralAnalysis :=
  let ar : ℚ := (w : ℚ) / (h : ℚ)
  let tm := totalMassSum px w h
  let cmx := if 0 < tm then centerMassXSum px w h / tm else centerMassXSum px w h
  let cmy := if 0 < tm then centerMassYSum px w h / tm else centerMassYSum px w h
  let bs := calculateBilateralSymmetry px w h
  let vs := calculateVerticalSymmetry px w h
  { aspectRatio := ar
    centerMassX := cmx / w
    centerMassY := cmy / h
    bilateralSymmetry := bs
    verticalSymmetry := vs
    anatomicalFeatures :=
      { isChestXray := decide (1.2 < ar) && decide (ar < 1.8)
        isBrainMRI := decide (|ar - 1| < 0.2) && decide (0.7 < bs)
        isCTScan := decide (|ar - 1| < 0.15)
        isSpineXray := decide (ar < 0.6)
        isMammography := decide (ar < 0.8) && decide (0.4 < ar) }
    clinicalPositioning :=
      { isCentered := decide (|cmx / w - 0.5| < 0.1) && decide (|cmy / h - 0.5| < 0.1)
        hasGoodSymmetry := decide (0.7 < bs)
        hasClinicalSymmetry := decide (0.4 < bs) && decide (bs ≤ 0.7)
        hasPoorSymmetry := decide (bs ≤ 0.4) } }

/-- The clinicalTexture record of performTextureAnalysis. -/
structure ClinicalTexture where
  isSmooth : Bool
  isNormal : Bool
  isComplex : Bool
  hasArtifacts : Bool
  isHighQuality : Bool
deriving DecidableEq

/-- Output of performTextureAnalysis (clinical profile). -/
structure TextureAnalysis where
  roughness : ℚ
  uniformity : ℚ
  localVariance : ℚ
  textureComplexity : ℚ
  patterns : List String
  clinicalTexture : ClinicalTexture
deriving DecidableEq

/-- The 8-neighborhood offsets, in source order, destructured as (dx, dy). -/
def neighborOffsets : List (ℤ × ℤ) :=
  [(-1, -1), (-1, 0), (-1, 1), (0, -1), (0, 1), (1, -1), (1, 0), (1, 1)]

/-- Absolute brightness differences between the center at (y, x) and its
valid 8-neighbors: a neighbor participates when its linear index nz satisfies
0 ≤ 4·nz and 4·nz < 4·n - 2, that is 0 ≤ nz < n. -/
def neighborDiffList (px : List Pixel) (w : ℕ) (y x : ℕ) (cB : ℚ) : List ℚ :=
  neighborOffsets.filterMap (fun d =>
    let nz : ℤ := ((y : ℤ) + d.2) * w + ((x : ℤ) + d.1)
    if 0 ≤ nz ∧ nz < (px.length : ℤ) then
      match brightnessAt px nz.toNat with
      | some nB => some (|cB - nB|)
      | none => none
    else none)

/-- Whether the texture loop processes the center at (y, x): the source
requires centerIndex < pixels.length - 4, that is index + 1 < n. -/
def textureCenterOk (px : List Pixel) (w : ℕ) (y x : ℕ) : Bool :=
  decide (y * w + x + 1 < px.length)

/-- Roughness contribution of one processed center: the sum of its neighbor
differences divided by 8 (the full neighbor count, valid or not, as in the
source). -/
def roughnessAt (px : List Pixel) (w : ℕ) (y x : ℕ) : ℚ :=
  let cB := (brightnessAt px (y * w + x)).getD 0
  (neighborDiffList px w y x cB).sum / 8

/-- Local variance contribution of one processed center: the variance of the
collected neighbor differences around their 8-division mean, divided by the
number of collected differences. -/
def localVarianceAt (px : List Pixel) (w : ℕ) (y x : ℕ) : ℚ :=
  let cB := (brightnessAt px (y * w + x)).getD 0
  let ds := neighborDiffList px w y x cB
  let meanDiff := ds.sum / 8
  (ds.map (fun d0 => (d0 - meanDiff) ^ 2)).sum / ds.length

/-- The processed texture centers: y and x from 2 by twos below h-2 and w-2,
kept when the center index check passes. -/
def textureCenters (px : List Pixel) (w h : ℕ) : List (ℕ × ℕ) :=
  (((stepRangeFrom 2 (h - 2) 2).map (fun y =>
    (stepRangeFrom 2 (w - 2) 2).map (fun x => (y, x)))).flatten).filter
    (fun c => textureCenterOk px w c.1 c.2)

/-- performTextureAnalysis (clinical profile): stride-2 local binary pattern
style roughness and local variance, averaged over the processed centers, with
the derived uniformity, texture complexity, pattern tags and flags. -/
def performTextureAnalysis (px : List Pixel) (w h : ℕ) : TextureAnalysis :=
  let cs := textureCenters px w h
  let comparisons := cs.length
  let roughSum := (cs.map (fun c => roughnessAt px w c.1 c.2)).sum
  let varSum := (cs.map (fun c => localVarianceAt px w c.1 c.2)).sum
  let roughness := if 0 < comparisons then roughSum / comparisons else 0
  let uniformity := max 0 (255 - roughness) / 255
  let localVariance := if 0 < comparisons then varSum / comparisons else 0
  let p1 : List String :=
    if 60 < roughness then ["high-detail", "complex-texture", "possible-pathology"]
    else if 30 < roughness then ["medium-detail", "moderate-texture", "normal-variation"]
    else ["smooth", "low-detail", "homogeneous"]
  let p2 : List String :=
    if 0.8 < uniformity then ["uniform", "homogeneous", "normal-tissue"]
    else if 0.5 < uniformity then ["semi-uniform", "mild-variation"]
    else ["heterogeneous", "varied", "possible-abnormality"]
  let p3 : List String :=
    if 120 < localVariance then ["high-variance", "noisy", "artifact-present"]
    else if 60 < localVariance then ["medium-variance", "normal-noise"]
    else ["low-variance", "clean", "high-quality"]
  { roughness := roughness
    uniformity := uniformity
    localVariance := localVariance
    textureComplexity := min ((roughness + localVariance) / 200) 1
    patterns := p1 ++ p2 ++ p3
    clinicalTexture :=
      { isSmooth := decide (roughness < 30)
        isNormal := decide (30 ≤ roughness) && decide (roughness ≤ 60)
        isComplex := decide (60 < roughness)
        hasArtifacts := decide (120 < localVariance)
        isHighQuality := decide (localVariance < 60) && decide (0.6 < uniformity) } }

/-- The fixed pathology score map of detectPathologies, fields in the source
declaration (= JavaScript iteration) order. -/
structure PathologyScores where
  pneumonia : ℚ
  atelectasis : ℚ
  cardiomegaly : ℚ
  pleural_effusion : ℚ
  pneumothorax : ℚ
  consolidation : ℚ
  edema : ℚ
  emphysema : ℚ
  fibrosis : ℚ
  nodule : ℚ
  mass : ℚ
  infiltration : ℚ
  stroke : ℚ
  tumor : ℚ
  hemorrhage : ℚ
  normal : ℚ
deriving DecidableEq

/-- The entries of the pathology map in iteration order, as Object.entries
yields them to the filter and sort. -/
def pathologyEntries (p : PathologyScores) : List (String × ℚ) :=
  [("pneumonia", p.pneumonia), ("atelectasis", p.atelectasis),
   ("cardiomegaly", p.cardiomegaly), ("pleural_effusion", p.pleural_effusion),
   ("pneumothorax", p.pneumothorax), ("consolidation", p.consolidation),
   ("edema", p.edema), ("emphysema", p.emphysema), ("fibrosis", p.fibrosis),
   ("nodule", p.nodule), ("mass", p.mass), ("infiltration", p.infiltration),
   ("stroke", p.stroke), ("tumor", p.tumor), ("hemorrhage", p.hemorrhage),
   ("normal", p.normal)]

/-- Descending order on scored entries, the JavaScript comparator
(a, b) => b - a. -/
def scoreDesc (a b : String × ℚ) : Prop := b.2 ≤ a.2

instance : DecidableRel scoreDesc := fun a b => inferInstanceAs (Decidable (b.2 ≤ a.2))

instance : IsTotal (String × ℚ) scoreDesc := ⟨fun a b => le_total b.2 a.2⟩

instance : IsTrans (String × ℚ) scoreDesc := ⟨fun _ _ _ hab hbc => le_trans hbc hab⟩

/-- Output of detectPathologies. -/
structure PathologyResult where
  pathologies : PathologyScores
  topPathologies : List (String × ℚ)
  hasPathology : Bool
  confidence : ℚ
deriving DecidableEq

/-- detectPathologies: rule-based scores over the visual features (the pixel
buffer and dimensions of the source signature are never read), then the
filtered (> 0.3), descending-sorted, five-entry top list and the hasPathology
flag. The sequential assignments of the source are mirrored exactly: when
both the pneumonia and the atelectasis indicators hold, the later atelectasis
rule overwrites consolidation with 0.5. -/
def detectPathologies (v : VisualAnalysis) : PathologyResult :=
  let pI := v.pathologyIndicators
  let noduleCond := contrastGtB v.contrastU 0.7 && oGT v.edgeDensity 0.5
  let p : PathologyScores :=
    { pneumonia := if pI.pneumonia then 0.85 else 0
      atelectasis := if pI.atelectasis then 0.8 else 0
      cardiomegaly := if pI.cardiomegaly then 0.75 else 0
      pleural_effusion := if pI.pleural_effusion then 0.8 else 0
      pneumothorax := if oGT v.darkRatio 0.9 then 0.7 else 0
      consolidation := if pI.atelectasis then 0.5 else if pI.pneumonia then 0.7 else 0
      edema := if pI.pleural_effusion then 0.4 else 0
      emphysema := if oGT v.brightRatio 0.3 && oLT v.darkRatio 0.4 then 0.5 else 0
      fibrosis := 0
      nodule := if noduleCond then 0.6 else 0
      mass := if noduleCond then 0.4 else 0
      infiltration := if pI.pneumonia then 0.6 else 0
      stroke := 0
      tumor := 0
      hemorrhage := 0
      normal := if pI.normal_chest then 0.9 else 0 }
  let sorted := (List.insertionSort scoreDesc
    ((pathologyEntries p).filter (fun e => decide ((0.3 : ℚ) < e.2)))).take 5
  { pathologies := p
    topPathologies := sorted
    hasPathology :=
      match sorted with
      | [] => false
      | e :: _ => decide ((0.5 : ℚ) < e.2)
    confidence :=
      match sorted with
      | [] => 0
      | e :: _ => e.2 }

/-- Results of the four clinical filename regex tests
(chest|lung|thorax|..., brain|mri|head|..., ct|computed|..., bone|fracture|...)
on the file name: the regular expression engine is external, so the embedding
takes the four boolean match outcomes as the input. -/
structure FilenameMatches where
  chest : Bool
  brain : Bool
  ct : Bool
  bone : Bool
deriving DecidableEq

/-- The per-group filename scores of analyzeMedicalFilename: the fixed weight
when the group pattern matched, 0 otherwise (the conditions lists attached in
the source are never read downstream). -/
structure FilenameScores where
  chest : ℚ
  brain : ℚ
  ct : ℚ
  bone : ℚ
deriving DecidableEq

/-- analyzeMedicalFilename (clinical profile): weights 0.95, 0.95, 0.9, 0.9. -/
def analyzeMedicalFilename (m : FilenameMatches) : FilenameScores :=
  { chest := if m.chest then 0.95 else 0
    brain := if m.brain then 0.95 else 0
    ct := if m.ct then 0.9 else 0
    bone := if m.bone then 0.9 else 0 }

/-- The nine-modality score map, fields in the clinical declaration order
(chest-xray first). The perfect profile re-uses the same fields with its own
iteration order, scoresListPerfect. -/
structure ClassificationScores where
  chestXray : ℚ
  brainMri : ℚ
  ctScan : ℚ
  ultrasound : ℚ
  boneXray : ℚ
  abdominalCt : ℚ
  mammography : ℚ
  dentalXray : ℚ
  spineXray : ℚ
deriving DecidableEq

/-- performClinicalClassification: recomputes the three extractors on the
buffer and fires one fixed rule per modality; dental-xray has no rule and
stays 0. -/
def performClinicalClassification (px : List Pixel) (w h : ℕ) : ClassificationScores :=
  let v := performAdvancedVisualAnalysis px
  let s := analyzeAnatomicalStructure px w h
  let t := performTextureAnalysis px w h
  { chestXray :=
      if v.clinicalFeatures.isDark && v.clinicalFeatures.hasHighContrast &&
         s.anatomicalFeatures.isChestXray && oGT v.edgeDensity 0.25 then 0.95 else 0
    brainMri :=
      if s.anatomicalFeatures.isBrainMRI && v.clinicalFeatures.isMedium &&
         s.clinicalPositioning.hasGoodSymmetry then 0.93 else 0
    ctScan :=
      if s.anatomicalFeatures.isCTScan && v.clinicalFeatures.isMedium &&
         t.clinicalTexture.isNormal then 0.9 else 0
    ultrasound :=
      if v.clinicalFeatures.isDark && v.clinicalFeatures.hasLowContrast &&
         t.patterns.contains ("noisy") then 0.85 else 0
    boneXray :=
      if v.clinicalFeatures.hasHighContrast && oGT v.brightRatio 0.15 &&
         t.clinicalTexture.isComplex then 0.88 else 0
    abdominalCt :=
      if s.anatomicalFeatures.isCTScan && v.clinicalFeatures.isMedium &&
         t.clinicalTexture.isNormal then 0.4 else 0
    mammography :=
      if s.anatomicalFeatures.isMammography && v.clinicalFeatures.isMedium &&
         v.clinicalFeatures.hasHighContrast then 0.87 else 0
    dentalXray := 0
    spineXray :=
      if s.anatomicalFeatures.isSpineXray && v.clinicalFeatures.hasHighContrast &&
         oGT v.edgeDensity 0.4 then 0.86 else 0 }

/-- The (key, score) list of the clinical scores object in its insertion
order, as Object.entries iterates it inside classifyMedicalImageClinical. -/
def scoresList (s : ClassificationScores) : List (String × ℚ) :=
  [("chest-xray", s.chestXray), ("brain-mri", s.brainMri), ("ct-scan", s.ctScan),
   ("ultrasound", s.ultrasound), ("bone-xray", s.boneXray),
   ("abdominal-ct", s.abdominalCt), ("mammography", s.mammography),
   ("dental-xray", s.dentalXray), ("spine-xray", s.spineXray)]

/-- Math.max over the nine clinical scores. -/
def maxScoreOf (s : ClassificationScores) : ℚ :=
  max s.chestXray (max s.brainMri (max s.ctScan (max s.ultrasound (max s.boneXray
    (max s.abdominalCt (max s.mammography (max s.dentalXray s.spineXray)))))))

/-- The chest-associated conditions rewarded by the pathology correlation
bonus. -/
def chestConditions : List String :=
  ["pneumonia", "atelectasis", "cardiomegaly", "pleural_effusion"]

/-- The pathology-detection contribution of classifyMedicalImageClinical:
0.15 to chest-xray when hasPathology holds, the top list is nonempty and its
first condition is chest-associated. -/
def pathologyBonus (pa : PathologyResult) : ℚ :=
  match pa.hasPathology, pa.topPathologies with
  | true, e :: _ => if chestConditions.contains e.1 then 0.15 else 0
  | _, _ => 0

/-- Result record of the ensemble classifiers: the selected type, the clamped
confidence, the final score map, and (clinical profile) the pathology result
that generateClinicalDiagnosis later reads from the carried analyses. -/
structure ClassifyOutput where
  type : String
  confidence : ℚ
  scores : ClassificationScores
  pathology : PathologyResult
deriving DecidableEq

/-- classifyMedicalImageClinical: filename weights 0.2 / 0.2 / (0.12, 0.08) /
(0.15, 0.05), clinical classification weight 0.6, pathology bonus 0.15, then
the arg-max by first match in iteration order with an unknown fallback, and
the confidence clamp min(·, 97) then max(·, 80). -/
def classifyMedicalImageClinical (fms : FilenameScores) (cl : ClassificationScores)
    (pa : PathologyResult) : ClassifyOutput :=
  let s : ClassificationScores :=
    { chestXray := fms.chest * 0.2 + cl.chestXray * 0.6 + pathologyBonus pa
      brainMri := fms.brain * 0.2 + cl.brainMri * 0.6
      ctScan := fms.ct * 0.12 + cl.ctScan * 0.6
      ultrasound := cl.ultrasound * 0.6
      boneXray := fms.bone * 0.15 + cl.boneXray * 0.6
      abdominalCt := fms.ct * 0.08 + cl.abdominalCt * 0.6
      mammography := cl.mammography * 0.6
      dentalXray := cl.dentalXray * 0.6
      spineXray := fms.bone * 0.05 + cl.spineXray * 0.6 }
  let m := maxScoreOf s
  { type := (((scoresList s).find? (fun e => decide (e.2 = m))).map Prod.fst).getD ("unknown")
    confidence := max (min (m * 100) 97) 80
    scores := s
    pathology := pa }

/-- The full clinical pipeline from buffer, dimensions and filename match
results to the classifier output, as performClinicalImageAnalysis wires it
(the classifier reads only the filename, clinical and pathology analyses). -/
def clinicalPipeline (px : List Pixel) (w h : ℕ) (m : FilenameMatches) : ClassifyOutput :=
  classifyMedicalImageClinical (analyzeMedicalFilename m)
    (performClinicalClassification px w h)
    (detectPathologies (performAdvancedVisualAnalysis px))

/-- determineChestXrayUrgency: low below 0.5, high for confident pneumonia or
pleural effusion above 0.8, medium otherwise. -/
def determineChestXrayUrgency (tops : List (String × ℚ)) : String :=
  match tops with
  | [] => "low"
  | e :: _ =>
    if e.2 < 0.5 then "low"
    else if 0.8 < e.2 then
      (if e.1 = "pneumonia" ∨ e.1 = "pleural_effusion" then "high"
       else "medium")
    else "medium"

/-- The fields of the ClinicalAnalysisResult that the claims are about; the
narrative prose fields are static content lookup and are omitted. -/
structure DiagnosisResult where
  imageType : String
  confidence : ℤ
  urgency : String
deriving DecidableEq

/-- generateClinicalDiagnosis: the chest-xray and brain-mri branches keep the
classified type as the imageType; the default branch overwrites it with
unknown and reports medium urgency. -/
def generateClinicalDiagnosis (o : ClassifyOutput) : DiagnosisResult :=
  if o.type = "chest-xray" then
    { imageType := o.type
      confidence := jsRound o.confidence
      urgency := determineChestXrayUrgency o.pathology.topPathologies }
  else if o.type = "brain-mri" then
    { imageType := o.type
      confidence := jsRound o.confidence
      urgency := "low" }
  else
    { imageType := "unknown"
      confidence := jsRound o.confidence
      urgency := "medium" }

/-- The per-group filename scores of analyzeFilenamePerfect (perfect profile,
nine groups). -/
structure FilenameScoresPerfect where
  brain : ℚ
  chest : ℚ
  ct : ℚ
  xray : ℚ
  ultrasound : ℚ
  bone : ℚ
  abdomen : ℚ
  mammography : ℚ
  dental : ℚ
deriving DecidableEq

/-- The anatomical-feature increments of classifyMedicalImagePerfect, one
switch case per feature tag. -/
def applyAnatomicalFeature (s : ClassificationScores) (f : String) : ClassificationScores :=
  if f = "bilateral-brain-symmetry" ∨ f = "brain-tissue-contrast" ∨ f = "cranial-structure" then
    { s with brainMri := s.brainMri + 0.08 }
  else if f = "rib-cage-structure" ∨ f = "lung-field-pattern" ∨ f = "thoracic-anatomy" then
    { s with chestXray := s.chestXray + 0.08 }
  else if f = "bone-cortex" ∨ f = "skeletal-structure" then
    { s with boneXray := s.boneXray + 0.08, spineXray := s.spineXray + 0.04 }
  else if f = "cross-sectional-anatomy" ∨ f = "ct-density-patterns" then
    { s with ctScan := s.ctScan + 0.06, abdominalCt := s.abdominalCt + 0.02 }
  else if f = "acoustic-shadowing" ∨ f = "soft-tissue-echoes" then
    { s with ultrasound := s.ultrasound + 0.08 }
  else if f = "breast-tissue" ∨ f = "mammographic-density" then
    { s with mammography := s.mammography + 0.08 }
  else s

/-- The (key, score) list of the perfect scores object in its insertion order
(brain-mri first). -/
def scoresListPerfect (s : ClassificationScores) : List (String × ℚ) :=
  [("brain-mri", s.brainMri), ("chest-xray", s.chestXray), ("ct-scan", s.ctScan),
   ("ultrasound", s.ultrasound), ("bone-xray", s.boneXray),
   ("abdominal-ct", s.abdominalCt), ("mammography", s.mammography),
   ("dental-xray", s.dentalXray), ("spine-xray", s.spineXray)]

/-- Math.max over the nine perfect scores. -/
def maxScorePerfect (s : ClassificationScores) : ℚ :=
  max s.brainMri (max s.chestXray (max s.ctScan (max s.ultrasound (max s.boneXray
    (max s.abdominalCt (max s.mammography (max s.dentalXray s.spineXray)))))))

/-- Result record of classifyMedicalImagePerfect. -/
structure ClassifyOutputPerfect where
  type : String
  confidence : ℚ
  scores : ClassificationScores
deriving DecidableEq

/-- classifyMedicalImagePerfect (src/App.tsx): filename weights 0.25 and the
split xray / ct / bone weights, medical classification weight 0.5, the
anatomical feature fold, then the arg-max by first match with the unknown
fallback and the confidence clamp min(·, 98) then max(·, 75). -/
def classifyMedicalImagePerfect (fms : FilenameScoresPerfect) (med : ClassificationScores)
    (anat : List String) : ClassifyOutputPerfect :=
  let base : ClassificationScores :=
    { brainMri := fms.brain * 0.25 + med.brainMri * 0.5
      chestXray := fms.chest * 0.25 + fms.xray * 0.1 + med.chestXray * 0.5
      ctScan := fms.ct * 0.15 + med.ctScan * 0.5
      ultrasound := fms.ultrasound * 0.25 + med.ultrasound * 0.5
      boneXray := fms.xray * 0.1 + fms.bone * 0.2 + med.boneXray * 0.5
      abdominalCt := fms.ct * 0.1 + fms.abdomen * 0.25 + med.abdominalCt * 0.5
      mammography := fms.mammography * 0.25 + med.mammography * 0.5
      dentalXray := fms.dental * 0.25 + med.dentalXray * 0.5
      spineXray := fms.xray * 0.05 + fms.bone * 0.05 + med.spineXray * 0.5 }
  let s := anat.foldl applyAnatomicalFeature base
  let m := maxScorePerfect s
  { type := (((scoresListPerfect s).find? (fun e => decide (e.2 = m))).map Prod.fst).getD ("unknown")
    confidence := max (min (m * 100) 98) 75
    scores := s }

/-- A gray pixel of the given brightness with full alpha. -/
def gray (v : ℕ) : Pixel := ⟨v, v, v, 255⟩

/-- An 8 by 4 buffer of uniform brightness 100: no filename, classification
or pathology rule fires on it, yet the arg-max tie-break still selects the
first declared modality. -/
def uniformBuf : List Pixel := (List.replicate 32 100).map gray

/-- One row of twelve brightness values as gray pixels. -/
def row12 (vs : List ℕ) : List Pixel := vs.map gray

/-- A 12 by 8 buffer (aspect ratio 1.5) with dark ratio 62/96, bright ratio
34/96, mean brightness 90.3125, contrast above 0.6, edge density 27/96 and
roughness above 60: the bone-xray rule fires while the chest-xray rule fails
its darkness test. -/
def boneBuf : List Pixel :=
  row12 [0, 0, 0, 0, 0, 0, 0, 0, 0, 0, 0, 0] ++
  row12 [0, 0, 0, 255, 0, 255, 0, 255, 0, 255, 0, 0] ++
  row12 [0, 0, 0, 0, 0, 0, 0, 0, 0, 0, 0, 0] ++
  row12 [0, 0, 0, 255, 0, 255, 0, 255, 0, 255, 0, 0] ++
  row12 [0, 0, 0, 0, 0, 0, 0, 0, 0, 0, 0, 0] ++
  row12 [0, 0, 0, 255, 0, 255, 0, 255, 0, 255, 0, 0] ++
  row12 [255, 255, 255, 255, 255, 255, 255, 255, 255, 255, 255, 255] ++
  row12 [0, 0, 255, 255, 255, 255, 255, 255, 255, 255, 255, 255]

/-- A 12 by 8 buffer with dark ratio 72/96, bright ratio 24/96, mean
brightness 63.75, contrast above 0.6 and edge density 47/96: both the
chest-xray and the bone-xray rules fire and chest-xray wins. -/
def chestBuf : List Pixel :=
  row12 [0, 0, 0, 0, 0, 0, 0, 0, 0, 0, 0, 0] ++
  row12 [0, 255, 0, 255, 0, 255, 0, 255, 0, 255, 0, 255] ++
  row12 [0, 0, 0, 0, 0, 0, 0, 0, 0, 0, 0, 0] ++
  row12 [0, 255, 0, 255, 0, 255, 0, 255, 0, 255, 0, 255] ++
  row12 [0, 0, 0, 0, 0, 0, 0, 0, 0, 0, 0, 0] ++
  row12 [0, 255, 0, 255, 0, 255, 0, 255, 0, 255, 0, 255] ++
  row12 [0, 0, 0, 0, 0, 0, 0, 0, 0, 0, 0, 0] ++
  row12 [0, 255, 0, 255, 0, 255, 0, 255, 0, 255, 0, 255]

/-- A 4 by 2 buffer that mirrors exactly about its vertical midline. -/
def mirrorBuf : List Pixel :=
  [gray 10, gray 40, gray 40, gray 10, gray 7, gray 20, gray 20, gray 7]

/-- A single-pixel buffer: trivially mirror symmetric, yet no mirror pair is
ever sampled. -/
def onePixelBuf : List Pixel := [gray 5]

/-- The no-match filename result. -/
def noMatch : FilenameMatches := ⟨false, false, false, false⟩

/-- The all-zero modality score record. -/
def zeroScores : ClassificationScores := ⟨0, 0, 0, 0, 0, 0, 0, 0, 0⟩

/-- An empty pathology result (no indicator fired). -/
def emptyPathology : PathologyResult :=
  ⟨⟨0, 0, 0, 0, 0, 0, 0, 0, 0, 0, 0, 0, 0, 0, 0, 0⟩, [], false, 0⟩

/-- A classifier output whose arg-max is ct-scan, one of the seven modalities
the diagnosis generator collapses to unknown. -/
def ctOutput : ClassifyOutput :=
  { type := "ct-scan", confidence := 90, scores := zeroScores, pathology := emptyPathology }

@[simp]
theorem oGT_some (v c : ℚ) : oGT (some v) c = decide (c < v) := rfl

@[simp]
theorem oGT_none (c : ℚ) : oGT none c = false := rfl

@[simp]
theorem oLT_some (v c : ℚ) : oLT (some v) c = decide (v < c) := rfl

@[simp]
theorem oLT_none (c : ℚ) : oLT none c = false := rfl

@[simp]
theorem oGE_some (v c : ℚ) : oGE (some v) c = decide (c ≤ v) := rfl

@[simp]
theorem oLE_some (v c : ℚ) : oLE (some v) c = decide (v ≤ c) := rfl

theorem jsDivN_of_ne_zero (a : ℚ) (n : ℕ) (h : n ≠ 0) : jsDivN a n = some (a / n) := by
  simp [jsDivN, h]

/-- Sanity of the brightness embedding: (r+g+b+1)/3 in natural division is
exactly the JavaScript Math.round((r+g+b)/3). -/
theorem brightN_eq_jsRound (p : Pixel) :
    (brightN p : ℤ) = jsRound (((p.r : ℚ) + p.g + p.b) / 3) := by
  have h1 : ((p.r : ℚ) + p.g + p.b) / 3 + 1 / 2 =
      ((2 * (p.r + p.g + p.b) + 3 : ℕ) : ℚ) / ((6 : ℕ) : ℚ) := by
    push_cast
    ring
  have h2 : ⌊((2 * (p.r + p.g + p.b) + 3 : ℕ) : ℚ) / ((6 : ℕ) : ℚ)⌋ =
      (((2 * (p.r + p.g + p.b) + 3) / 6 : ℕ) : ℤ) := by
    exact_mod_cast Rat.floor_natCast_div_natCast _ _
  rw [jsRound, h1, h2, brightN]
  have h3 : (p.r + p.g + p.b + 1) / 3 = (2 * (p.r + p.g + p.b) + 3) / 6 := by omega
  rw [h3]

/-- The squared comparison implementing contrast > c agrees with the real
contrast value min(sqrt(u)/128, 1). -/
theorem contrastGtB_iff (u c : ℚ) :
    contrastGtB u c = true ↔ (c : ℝ) < contrastVal u := by
  unfold contrastGtB contrastVal
  simp only [Bool.or_eq_true, Bool.and_eq_true, decide_eq_true_eq, lt_min_iff]
  by_cases hc : c < 0
  · have hcr : (c : ℝ) < 0 := by exact_mod_cast hc
    constructor
    · intro _
      constructor
      · calc (c : ℝ) < 0 := hcr
          _ ≤ Real.sqrt u / 128 := by positivity
      · linarith
    · intro _
      exact Or.inl hc
  · push_neg at hc
    have hcr : (0 : ℝ) ≤ (c : ℝ) := by exact_mod_cast hc
    have h128 : (0 : ℝ) ≤ (c : ℝ) * 128 := by positivity
    have key : (c : ℝ) < Real.sqrt u / 128 ↔ 16384 * c ^ 2 < u := by
      rw [lt_div_iff₀ (by norm_num : (0 : ℝ) < 128), Real.lt_sqrt h128]
      constructor
      · intro h
        have h' : ((16384 * c ^ 2 : ℚ) : ℝ) < ((u : ℚ) : ℝ) := by
          push_cast
          nlinarith
        exact_mod_cast h'
      · intro h
        have h' : ((16384 * c ^ 2 : ℚ) : ℝ) < ((u : ℚ) : ℝ) := by exact_mod_cast h
        push_cast at h'
        nlinarith
    constructor
    · rintro (h | ⟨h1, h2⟩)
      · exact absurd h (not_lt.2 hc)
      · exact ⟨key.2 h2, by exact_mod_cast h1⟩
    · rintro ⟨h1, h2⟩
      exact Or.inr ⟨by exact_mod_cast h2, key.1 h1⟩

/-- The squared comparison implementing contrast < c agrees with the real
contrast value. -/
theorem contrastLtB_iff (u c : ℚ) :
    contrastLtB u c = true ↔ contrastVal u < (c : ℝ) := by
  unfold contrastLtB contrastVal
  simp only [Bool.or_eq_true, Bool.and_eq_true, decide_eq_true_eq, min_lt_iff]
  by_cases hc : 0 < c
  · have hcr : (0 : ℝ) < (c : ℝ) * 128 := by
      have : (0 : ℝ) < (c : ℝ) := by exact_mod_cast hc
      nlinarith
    have key : Real.sqrt u / 128 < (c : ℝ) ↔ u < 16384 * c ^ 2 := by
      rw [div_lt_iff₀ (by norm_num : (0 : ℝ) < 128), Real.sqrt_lt' hcr]
      constructor
      · intro h
        have h' : ((u : ℚ) : ℝ) < ((16384 * c ^ 2 : ℚ) : ℝ) := by
          push_cast
          nlinarith
        exact_mod_cast h'
      · intro h
        have h' : ((u : ℚ) : ℝ) < ((16384 * c ^ 2 : ℚ) : ℝ) := by exact_mod_cast h
        push_cast at h'
        nlinarith
    constructor
    · rintro (⟨_, h2⟩ | h1)
      · exact Or.inl (key.2 h2)
      · exact Or.inr (by exact_mod_cast h1)
    · rintro (h | h)
      · exact Or.inl ⟨hc, key.1 h⟩
      · exact Or.inr (by exact_mod_cast h)
  · push_neg at hc
    have hs : (0 : ℝ) ≤ Real.sqrt u / 128 := by positivity
    have hncr : ¬ (Real.sqrt u / 128 < (c : ℝ)) := by
      intro h
      have : (c : ℝ) ≤ 0 := by exact_mod_cast hc
      linarith
    constructor
    · rintro (⟨h1, _⟩ | h1)
      · exact absurd h1 (not_lt.2 hc)
      · exact Or.inr (by exact_mod_cast h1)
    · rintro (h | h)
      · exact absurd h hncr
      · exact Or.inr (by exact_mod_cast h)

/-- The histogram variance is nonnegative. -/
theorem contrastU_nonneg (hist : List ℕ) : 0 ≤ calculateClinicalContrastU hist := by
  unfold calculateClinicalContrastU
  split
  · exact le_refl 0
  · apply div_nonneg
    · apply List.sum_nonneg
      intro x hx
      simp only [List.mem_map] at hx
      obtain ⟨ic, _, rfl⟩ := hx
      positivity
    · positivity

/-- Splitting a list count along the if / else-if / else cascade of the
brightness band classifier. -/
theorem countP_three_split {α : Type} (l : List α) (p q : α → Bool) :
    l.countP p + l.countP (fun a => !p a && q a) + l.countP (fun a => !p a && !q a) =
      l.length := by
  induction l with
  | nil => simp
  | cons a t ih =>
    simp only [List.countP_cons, List.length_cons]
    cases hp : p a <;> cases hq : q a <;> simp [hp, hq] <;> omega

/-- A list of optional similarities each in the unit interval sums to at most
the number of present values. -/
theorem optionSum_bounds (l : List (Option ℚ))
    (hb : ∀ o ∈ l, ∀ q : ℚ, o = some q → 0 ≤ q ∧ q ≤ 1) :
    0 ≤ (l.map (fun o => o.getD 0)).sum ∧
      (l.map (fun o => o.getD 0)).sum ≤ (l.countP (fun o => o.isSome) : ℚ) := by
  induction l with
  | nil => simp
  | cons o t ih =>
    have ht := ih (fun o' ho' q hq => hb o' (List.mem_cons_of_mem _ ho') q hq)
    cases o with
    | none =>
      simpa [List.countP_cons] using ht
    | some v =>
      have hv := hb (some v) (List.mem_cons_self _ _) v rfl
      simp only [List.map_cons, List.sum_cons, List.countP_cons, Option.getD_some,
        Option.isSome_some, if_pos, Nat.cast_add, Nat.cast_one]
      constructor
      · linarith [ht.1, hv.1]
      · have := ht.2
        linarith [hv.2]

/-- When every cell is a present similarity of exactly 1, the mean-similarity
expression evaluates to 1. -/
theorem mean_of_ones (cells : List (Option ℚ)) (h1 : ∀ c ∈ cells, c = some 1)
    (hne : cells ≠ []) :
    (if 0 < cells.countP (fun o => o.isSome) then
      (cells.map (fun o => o.getD 0)).sum / (cells.countP (fun o => o.isSome) : ℚ)
    else 0) = 1 := by
  have hc : cells.countP (fun o => o.isSome) = cells.length :=
    List.countP_eq_length.2 (fun a ha => by rw [h1 a ha]; rfl)
  have hmap : cells.map (fun o => o.getD 0) = cells.map (fun _ => (1 : ℚ)) :=
    List.map_congr_left (fun a ha => by rw [h1 a ha]; rfl)
  have hsum : (cells.map (fun o => o.getD 0)).sum = (cells.length : ℚ) := by
    rw [hmap, List.map_const']
    simp
  have hlen : 0 < cells.length := List.length_pos.2 hne
  rw [hc, hsum, if_pos hlen]
  exact div_self (by exact_mod_cast hlen.ne')

/-- Membership in the step range. -/
theorem mem_stepRange {i n step : ℕ} : i ∈ stepRange n step ↔ i < n ∧ i % step = 0 := by
  simp [stepRange]

/-- The head of a descending-sorted list dominates every member. -/
theorem sorted_head_ge {x : String × ℚ} {t : List (String × ℚ)}
    (hs : List.Sorted scoreDesc (x :: t)) {e : String × ℚ} (he : e ∈ x :: t) :
    e.2 ≤ x.2 := by
  rcases List.mem_cons.1 he with rfl | he'
  · exact le_refl _
  · exact List.rel_of_sorted_cons hs e he'

/-- Membership passes through the insertion sort. -/
theorem mem_insertionSort {e : String × ℚ} {l : List (String × ℚ)} :
    e ∈ List.insertionSort scoreDesc l ↔ e ∈ l :=
  (List.perm_insertionSort scoreDesc l).mem_iff

/-- Any similarity the mirror comparison produces lies in the unit
interval. -/
theorem bilatSimAt_bounds (px : List Pixel) (w y x : ℕ) (q : ℚ)
    (hq : bilatSimAt px w y x = some q) : 0 ≤ q ∧ q ≤ 1 := by
  unfold bilatSimAt at hq
  split at hq
  case _ l r _ _ =>
    obtain rfl : max 0 (255 - |l - r|) / 255 = q := by injection hq
    constructor
    · positivity
    · apply (div_le_one (by norm_num : (0:ℚ) < 255)).2
      apply max_le (by norm_num)
      have := abs_nonneg (l - r)
      linarith
  case _ => exact absurd hq (by simp)

/-- Any similarity the vertical mirror comparison produces lies in the unit
interval. -/
theorem vertSimAt_bounds (px : List Pixel) (w h x y : ℕ) (q : ℚ)
    (hq : vertSimAt px w h x y = some q) : 0 ≤ q ∧ q ≤ 1 := by
  unfold vertSimAt at hq
  split at hq
  case _ t b _ _ =>
    obtain rfl : max 0 (255 - |t - b|) / 255 = q := by injection hq
    constructor
    · positivity
    · apply (div_le_one (by norm_num : (0:ℚ) < 255)).2
      apply max_le (by norm_num)
      have := abs_nonneg (t - b)
      linarith
  case _ => exact absurd hq (by simp)

/-- The mean mirror similarity lies in the unit interval. -/
theorem bilateralCore_bounds (px : List Pixel) (w h step : ℕ) :
    0 ≤ bilateralCore px w h step ∧ bilateralCore px w h step ≤ 1 := by
  unfold bilateralCore
  dsimp only
  set cells := ((stepRange h step).map (fun y =>
    (stepRange (w / 2) step).map (fun x => bilatSimAt px w y x))).flatten with hcells
  have hb : ∀ o ∈ cells, ∀ q : ℚ, o = some q → 0 ≤ q ∧ q ≤ 1 := by
    intro o ho q hq
    rw [hcells] at ho
    simp only [List.mem_flatten, List.mem_map] at ho
    obtain ⟨_, ⟨y, _, rfl⟩, ho⟩ := ho
    obtain ⟨x, _, rfl⟩ := List.mem_map.1 ho
    exact bilatSimAt_bounds px w y x q hq
  have hsb := optionSum_bounds cells hb
  split
  case isTrue hpos =>
    constructor
    · exact div_nonneg hsb.1 (by positivity)
    · exact (div_le_one (by exact_mod_cast hpos)).2 hsb.2
  case isFalse => norm_num

/-- The mean vertical similarity lies in the unit interval. -/
theorem verticalCore_bounds (px : List Pixel) (w h step : ℕ) :
    0 ≤ verticalCore px w h step ∧ verticalCore px w h step ≤ 1 := by
  unfold verticalCore
  dsimp only
  set cells := ((stepRange w step).map (fun x =>
    (stepRange (h / 2) step).map (fun y => vertSimAt px w h x y))).flatten with hcells
  have hb : ∀ o ∈ cells, ∀ q : ℚ, o = some q → 0 ≤ q ∧ q ≤ 1 := by
    intro o ho q hq
    rw [hcells] at ho
    simp only [List.mem_flatten, List.mem_map] at ho
    obtain ⟨_, ⟨x, _, rfl⟩, ho⟩ := ho
    obtain ⟨y, _, rfl⟩ := List.mem_map.1 ho
    exact vertSimAt_bounds px w h x y q hq
  have hsb := optionSum_bounds cells hb
  split
  case isTrue hpos =>
    constructor
    · exact div_nonneg hsb.1 (by positivity)
    · exact (div_le_one (by exact_mod_cast hpos)).2 hsb.2
  case isFalse => norm_num

/-- Every collected neighbor difference is an absolute value, hence
nonnegative. -/
theorem neighborDiffList_nonneg (px : List Pixel) (w y x : ℕ) (cB : ℚ) :
    ∀ d0 ∈ neighborDiffList px w y x cB, 0 ≤ d0 := by
  intro d0 hd
  unfold neighborDiffList at hd
  obtain ⟨d, _, hfd⟩ := List.mem_filterMap.1 hd
  dsimp only at hfd
  split at hfd
  · split at hfd
    · obtain rfl : |cB - _| = d0 := by injection hfd
      exact abs_nonneg _
    · exact absurd hfd (by simp)
  · exact absurd hfd (by simp)

/-- Roughness contributions are nonnegative. -/
theorem roughnessAt_nonneg (px : List Pixel) (w y x : ℕ) :
    0 ≤ roughnessAt px w y x := by
  unfold roughnessAt
  exact div_nonneg (List.sum_nonneg (neighborDiffList_nonneg px w y x _)) (by norm_num)

/-- Local variance contributions are nonnegative. -/
theorem localVarianceAt_nonneg (px : List Pixel) (w y x : ℕ) :
    0 ≤ localVarianceAt px w y x := by
  unfold localVarianceAt
  apply div_nonneg _ (by positivity)
  apply List.sum_nonneg
  intro d0 hd
  obtain ⟨d1, _, rfl⟩ := List.mem_map.1 hd
  positivity

/-- The averaged roughness is nonnegative. -/
theorem texture_roughness_nonneg (px : List Pixel) (w h : ℕ) :
    0 ≤ (performTextureAnalysis px w h).roughness := by
  show 0 ≤ (if 0 < (textureCenters px w h).length then _ / ((textureCenters px w h).length : ℚ) else 0)
  split
  · apply div_nonneg _ (by positivity)
    apply List.sum_nonneg
    intro r hr
    obtain ⟨c, _, rfl⟩ := List.mem_map.1 hr
    exact roughnessAt_nonneg px w c.1 c.2
  · exact le_refl 0

/-- The averaged local variance is nonnegative. -/
theorem texture_localVariance_nonneg (px : List Pixel) (w h : ℕ) :
    0 ≤ (performTextureAnalysis px w h).localVariance := by
  show 0 ≤ (if 0 < (textureCenters px w h).length then _ / ((textureCenters px w h).length : ℚ) else 0)
  split
  · apply div_nonneg _ (by positivity)
    apply List.sum_nonneg
    intro r hr
    obtain ⟨c, _, rfl⟩ := List.mem_map.1 hr
    exact localVarianceAt_nonneg px w c.1 c.2
  · exact le_refl 0

/-- C6: for every non-empty RGBA buffer the three brightness-band fractions
of the visual feature extractor sum to exactly 1, in both the clinical and
the perfect profile, because every pixel falls into exactly one band. -/
theorem claim6_band_fractions_sum_to_one (px : List Pixel) (hne : px ≠ []) :
    (∃ d b m : ℚ,
      (performAdvancedVisualAnalysis px).darkRatio = some d ∧
      (performAdvancedVisualAnalysis px).brightRatio = some b ∧
      (performAdvancedVisualAnalysis px).mediumRatio = some m ∧
      d + b + m = 1) ∧
    (∃ d b m : ℚ,
      (analyzeVisualCharacteristicsPerfect px).darkRatio = some d ∧
      (analyzeVisualCharacteristicsPerfect px).brightRatio = some b ∧
      (analyzeVisualCharacteristicsPerfect px).mediumRatio = some m ∧
      d + b + m = 1) := by
  have hn : px.length ≠ 0 := by simpa [List.length_eq_zero] using hne
  have hnq : ((px.length : ℚ)) ≠ 0 := Nat.cast_ne_zero.2 hn
  constructor
  · refine ⟨(px.countP (fun p => decide (brightN p < 50)) : ℚ) / px.length,
      (px.countP (fun p => !decide (brightN p < 50) && decide (200 < brightN p)) : ℚ) / px.length,
      (px.countP (fun p => !decide (brightN p < 50) && !decide (200 < brightN p)) : ℚ) / px.length,
      ?_, ?_, ?_, ?_⟩
    · show jsDivN _ px.length = _
      rw [jsDivN_of_ne_zero _ _ hn]
    · show jsDivN _ px.length = _
      rw [jsDivN_of_ne_zero _ _ hn]
    · show jsDivN _ px.length = _
      rw [jsDivN_of_ne_zero _ _ hn]
    · have hsplit := countP_three_split px (fun p => decide (brightN p < 50))
        (fun p => decide (200 < brightN p))
      rw [div_add_div_same, div_add_div_same]
      have hcast : (px.countP (fun p => decide (brightN p < 50)) : ℚ) +
          (px.countP (fun p => !decide (brightN p < 50) && decide (200 < brightN p)) : ℚ) +
          (px.countP (fun p => !decide (brightN p < 50) && !decide (200 < brightN p)) : ℚ) =
          (px.length : ℚ) := by
        exact_mod_cast congrArg (fun k : ℕ => (k : ℚ)) hsplit
      rw [hcast]
      exact div_self hnq
  · refine ⟨(px.countP (fun p => decide (brightN p < 60)) : ℚ) / px.length,
      (px.countP (fun p => !decide (brightN p < 60) && decide (200 < brightN p)) : ℚ) / px.length,
      (px.countP (fun p => !decide (brightN p < 60) && !decide (200 < brightN p)) : ℚ) / px.length,
      ?_, ?_, ?_, ?_⟩
    · show jsDivN _ px.length = _
      rw [jsDivN_of_ne_zero _ _ hn]
    · show jsDivN _ px.length = _
      rw [jsDivN_of_ne_zero _ _ hn]
    · show jsDivN _ px.length = _
      rw [jsDivN_of_ne_zero _ _ hn]
    · have hsplit := countP_three_split px (fun p => decide (brightN p < 60))
        (fun p => decide (200 < brightN p))
      rw [div_add_div_same, div_add_div_same]
      have hcast : (px.countP (fun p => decide (brightN p < 60)) : ℚ) +
          (px.countP (fun p => !decide (brightN p < 60) && decide (200 < brightN p)) : ℚ) +
          (px.countP (fun p => !decide (brightN p < 60) && !decide (200 < brightN p)) : ℚ) =
          (px.length : ℚ) := by
        exact_mod_cast congrArg (fun k : ℕ => (k : ℚ)) hsplit
      rw [hcast]
      exact div_self hnq

/-- Witness for C6 at a concrete non-empty buffer. -/
theorem claim6_band_fractions_sum_to_one_witness :
    uniformBuf ≠ [] ∧
    ((∃ d b m : ℚ,
      (performAdvancedVisualAnalysis uniformBuf).darkRatio = some d ∧
      (performAdvancedVisualAnalysis uniformBuf).brightRatio = some b ∧
      (performAdvancedVisualAnalysis uniformBuf).mediumRatio = some m ∧
      d + b + m = 1) ∧
    (∃ d b m : ℚ,
      (analyzeVisualCharacteristicsPerfect uniformBuf).darkRatio = some d ∧
      (analyzeVisualCharacteristicsPerfect uniformBuf).brightRatio = some b ∧
      (analyzeVisualCharacteristicsPerfect uniformBuf).mediumRatio = some m ∧
      d + b + m = 1)) :=
  ⟨by decide, claim6_band_fractions_sum_to_one uniformBuf (by decide)⟩

/-- C7: the contrast, both symmetry scores, the uniformity and the texture
complexity extracted from any buffer all lie in the closed unit interval. -/
theorem claim7_features_in_unit_interval (px : List Pixel) (w h : ℕ) :
    (0 ≤ contrastVal (performAdvancedVisualAnalysis px).contrastU ∧
      contrastVal (performAdvancedVisualAnalysis px).contrastU ≤ 1) ∧
    (0 ≤ (analyzeAnatomicalStructure px w h).bilateralSymmetry ∧
      (analyzeAnatomicalStructure px w h).bilateralSymmetry ≤ 1) ∧
    (0 ≤ (analyzeAnatomicalStructure px w h).verticalSymmetry ∧
      (analyzeAnatomicalStructure px w h).verticalSymmetry ≤ 1) ∧
    (0 ≤ (performTextureAnalysis px w h).uniformity ∧
      (performTextureAnalysis px w h).uniformity ≤ 1) ∧
    (0 ≤ (performTextureAnalysis px w h).textureComplexity ∧
      (performTextureAnalysis px w h).textureComplexity ≤ 1) := by
  refine ⟨⟨?_, ?_⟩, ⟨?_, ?_⟩, ⟨?_, ?_⟩, ⟨?_, ?_⟩, ⟨?_, ?_⟩⟩
  · show (0 : ℝ) ≤ min (Real.sqrt _ / 128) 1
    exact le_min (by positivity) (by norm_num)
  · exact min_le_right _ _
  · exact (bilateralCore_bounds px w h 2).1
  · exact (bilateralCore_bounds px w h 2).2
  · exact (verticalCore_bounds px w h 2).1
  · exact (verticalCore_bounds px w h 2).2
  · show (0 : ℚ) ≤ max 0 (255 - (performTextureAnalysis px w h).roughness) / 255
    positivity
  · show max 0 (255 - (performTextureAnalysis px w h).roughness) / 255 ≤ 1
    apply (div_le_one (by norm_num : (0:ℚ) < 255)).2
    apply max_le (by norm_num)
    have := texture_roughness_nonneg px w h
    linarith
  · show (0 : ℚ) ≤ min (((performTextureAnalysis px w h).roughness +
      (performTextureAnalysis px w h).localVariance) / 200) 1
    have h1 := texture_roughness_nonneg px w h
    have h2 := texture_localVariance_nonneg px w h
    exact le_min (by positivity) (by norm_num)
  · exact min_le_right _ _

/-- Counterexample for C2 as stated: on the zero-pixel buffer the dark band
fraction is NaN (modelled as none), not the guarded zero the claim
describes. -/
theorem claim2_counterexample :
    (performAdvancedVisualAnalysis []).darkRatio = none ∧
    ¬ ((performAdvancedVisualAnalysis []).darkRatio = some 0) := by decide

/-- C2 amended: on a buffer of zero pixels only the contrast is explicitly
guarded to 0 (inside calculateClinicalContrast); the mean brightness, edge
density and the three band fractions are all 0/0, hence NaN. -/
theorem claim2_zero_buffer_amended :
    (performAdvancedVisualAnalysis []).brightness = none ∧
    (performAdvancedVisualAnalysis []).edgeDensity = none ∧
    (performAdvancedVisualAnalysis []).darkRatio = none ∧
    (performAdvancedVisualAnalysis []).brightRatio = none ∧
    (performAdvancedVisualAnalysis []).mediumRatio = none ∧
    (performAdvancedVisualAnalysis []).contrastU = 0 ∧
    contrastVal (performAdvancedVisualAnalysis []).contrastU = 0 := by
  refine ⟨by decide, by decide, by decide, by decide, by decide, by decide, ?_⟩
  have h : (performAdvancedVisualAnalysis ([] : List Pixel)).contrastU = 0 := by decide
  rw [h]
  unfold contrastVal
  have hc : ((0 : ℚ) : ℝ) = 0 := by norm_num
  rw [hc, Real.sqrt_zero]
  norm_num

/-- C4: the reported confidence of the ensemble classifiers always lies in
the clamp band, 80 to 97 for the clinical profile and 75 to 98 for the
perfect profile, whatever the raw ensemble score is. -/
theorem claim4_confidence_band :
    (∀ (fms : FilenameScores) (cl : ClassificationScores) (pa : PathologyResult),
      80 ≤ (classifyMedicalImageClinical fms cl pa).confidence ∧
        (classifyMedicalImageClinical fms cl pa).confidence ≤ 97) ∧
    (∀ (fms : FilenameScoresPerfect) (med : ClassificationScores) (anat : List String),
      75 ≤ (classifyMedicalImagePerfect fms med anat).confidence ∧
        (classifyMedicalImagePerfect fms med anat).confidence ≤ 98) := by
  constructor
  · intro fms cl pa
    constructor
    · show (80 : ℚ) ≤ max (min _ 97) 80
      exact le_max_right _ _
    · show max (min _ 97) 80 ≤ 97
      exact max_le (min_le_right _ _) (by norm_num)
  · intro fms med anat
    constructor
    · show (75 : ℚ) ≤ max (min _ 98) 75
      exact le_max_right _ _
    · show max (min _ 98) 75 ≤ 98
      exact max_le (min_le_right _ _) (by norm_num)

/-- C9: the clinical diagnosis generator only ever reports chest-xray,
brain-mri or unknown, and every one of the seven other arg-max winners is
overwritten to unknown by the default branch. -/
theorem claim9_image_type_collapsed (o : ClassifyOutput) :
    ((generateClinicalDiagnosis o).imageType = "chest-xray" ∨
      (generateClinicalDiagnosis o).imageType = "brain-mri" ∨
      (generateClinicalDiagnosis o).imageType = "unknown") ∧
    (o.type ∈ ["ct-scan", "ultrasound", "bone-xray", "abdominal-ct", "mammography",
        "dental-xray", "spine-xray"] →
      (generateClinicalDiagnosis o).imageType = "unknown") := by
  by_cases h1 : o.type = "chest-xray"
  · refine ⟨Or.inl ?_, fun hm => absurd hm ?_⟩
    · simp [generateClinicalDiagnosis, h1]
    · rw [h1]
      decide
  · by_cases h2 : o.type = "brain-mri"
    · refine ⟨Or.inr (Or.inl ?_), fun hm => absurd hm ?_⟩
      · simp [generateClinicalDiagnosis, h1, h2]
      · rw [h2]
        decide
    · refine ⟨Or.inr (Or.inr ?_), fun _ => ?_⟩
      · simp [generateClinicalDiagnosis, h1, h2]
      · simp [generateClinicalDiagnosis, h1, h2]

/-- Witness for C9 at a concrete classifier output whose arg-max is one of
the seven collapsed modalities. -/
theorem claim9_image_type_collapsed_witness :
    ctOutput.type ∈ ["ct-scan", "ultrasound", "bone-xray", "abdominal-ct",
      "mammography", "dental-xray", "spine-xray"] ∧
    (generateClinicalDiagnosis ctOutput).imageType = "unknown" :=
  ⟨by decide, (claim9_image_type_collapsed ctOutput).2 (by decide)⟩

/-- C5: the top pathology list holds only scores above 0.3, descending, at
most five entries, and the hasPathology flag holds exactly when the list is
nonempty with a leading score above 0.5. -/
theorem claim5_top_pathologies_invariants (v : VisualAnalysis) :
    (∀ e ∈ (detectPathologies v).topPathologies, (0.3 : ℚ) < e.2) ∧
    List.Sorted scoreDesc (detectPathologies v).topPathologies ∧
    (detectPathologies v).topPathologies.length ≤ 5 ∧
    ((detectPathologies v).hasPathology = true ↔
      ∃ e t, (detectPathologies v).topPathologies = e :: t ∧ (0.5 : ℚ) < e.2) := by
  have htop : (detectPathologies v).topPathologies =
      (List.insertionSort scoreDesc
        ((pathologyEntries (detectPathologies v).pathologies).filter
          (fun e => decide ((0.3 : ℚ) < e.2)))).take 5 := rfl
  have hhas : (detectPathologies v).hasPathology =
      (match (detectPathologies v).topPathologies with
        | [] => false
        | e :: _ => decide ((0.5 : ℚ) < e.2)) := rfl
  refine ⟨?_, ?_, ?_, ?_⟩
  · intro e he
    rw [htop] at he
    have he1 := List.mem_of_mem_take he
    have he2 := mem_insertionSort.1 he1
    have := List.of_mem_filter he2
    simpa using this
  · rw [htop]
    exact List.Pairwise.sublist (List.take_sublist _ _) (List.sorted_insertionSort scoreDesc _)
  · rw [htop]
    exact List.length_take_le _ _
  · rw [hhas]
    rcases hx : (detectPathologies v).topPathologies with _ | ⟨e, t⟩
    · simp
    · simp only [decide_eq_true_eq]
      constructor
      · intro h5
        exact ⟨e, t, rfl, h5⟩
      · rintro ⟨e', t', heq, h5⟩
        obtain ⟨rfl, rfl⟩ : e' = e ∧ t' = t := by
          constructor <;> injection heq.symm
        exact h5

/-- C1 amended: when every entry of the final modality score map is zero the
arg-max search finds the first-declared modality at the shared maximum 0, so
the clinical profile reports chest-xray and the perfect profile brain-mri;
the unknown fallback after the find is unreachable. -/
theorem claim1_all_zero_selects_first_declared :
    (∀ (fms : FilenameScores) (cl : ClassificationScores) (pa : PathologyResult),
      (∀ e ∈ scoresList (classifyMedicalImageClinical fms cl pa).scores, e.2 = 0) →
      (classifyMedicalImageClinical fms cl pa).type = "chest-xray") ∧
    (∀ (fms : FilenameScoresPerfect) (med : ClassificationScores) (anat : List String),
      (∀ e ∈ scoresListPerfect (classifyMedicalImagePerfect fms med anat).scores, e.2 = 0) →
      (classifyMedicalImagePerfect fms med anat).type = "brain-mri") := by
  constructor
  · intro fms cl pa h
    set s := (classifyMedicalImageClinical fms cl pa).scores with hs
    have h1 : s.chestXray = 0 := h ("chest-xray", s.chestXray) (by simp [scoresList])
    have h2 : s.brainMri = 0 := h ("brain-mri", s.brainMri) (by simp [scoresList])
    have h3 : s.ctScan = 0 := h ("ct-scan", s.ctScan) (by simp [scoresList])
    have h4 : s.ultrasound = 0 := h ("ultrasound", s.ultrasound) (by simp [scoresList])
    have h5 : s.boneXray = 0 := h ("bone-xray", s.boneXray) (by simp [scoresList])
    have h6 : s.abdominalCt = 0 := h ("abdominal-ct", s.abdominalCt) (by simp [scoresList])
    have h7 : s.mammography = 0 := h ("mammography", s.mammography) (by simp [scoresList])
    have h8 : s.dentalXray = 0 := h ("dental-xray", s.dentalXray) (by simp [scoresList])
    have h9 : s.spineXray = 0 := h ("spine-xray", s.spineXray) (by simp [scoresList])
    have hmax : maxScoreOf s = 0 := by
      unfold maxScoreOf
      rw [h1, h2, h3, h4, h5, h6, h7, h8, h9]
      norm_num
    show (((scoresList s).find? (fun e => decide (e.2 = maxScoreOf s))).map Prod.fst).getD
      ("unknown") = "chest-xray"
    rw [hmax]
    simp [scoresList, List.find?, h1]
  · intro fms med anat h
    set s := (classifyMedicalImagePerfect fms med anat).scores with hs
    have h1 : s.brainMri = 0 := h ("brain-mri", s.brainMri) (by simp [scoresListPerfect])
    have h2 : s.chestXray = 0 := h ("chest-xray", s.chestXray) (by simp [scoresListPerfect])
    have h3 : s.ctScan = 0 := h ("ct-scan", s.ctScan) (by simp [scoresListPerfect])
    have h4 : s.ultrasound = 0 := h ("ultrasound", s.ultrasound) (by simp [scoresListPerfect])
    have h5 : s.boneXray = 0 := h ("bone-xray", s.boneXray) (by simp [scoresListPerfect])
    have h6 : s.abdominalCt = 0 := h ("abdominal-ct", s.abdominalCt) (by simp [scoresListPerfect])
    have h7 : s.mammography = 0 := h ("mammography", s.mammography) (by simp [scoresListPerfect])
    have h8 : s.dentalXray = 0 := h ("dental-xray", s.dentalXray) (by simp [scoresListPerfect])
    have h9 : s.spineXray = 0 := h ("spine-xray", s.spineXray) (by simp [scoresListPerfect])
    have hmax : maxScorePerfect s = 0 := by
      unfold maxScorePerfect
      rw [h1, h2, h3, h4, h5, h6, h7, h8, h9]
      norm_num
    show (((scoresListPerfect s).find? (fun e => decide (e.2 = maxScorePerfect s))).map
      Prod.fst).getD ("unknown") = "brain-mri"
    rw [hmax]
    simp [scoresListPerfect, List.find?, h1]

/-- Witness for the amended C1 at concrete all-zero inputs for both
profiles. -/
theorem claim1_all_zero_selects_first_declared_witness :
    (∀ e ∈ scoresList (classifyMedicalImageClinical ⟨0, 0, 0, 0⟩ zeroScores
      emptyPathology).scores, e.2 = 0) ∧
    (classifyMedicalImageClinical ⟨0, 0, 0, 0⟩ zeroScores emptyPathology).type = "chest-xray" ∧
    (∀ e ∈ scoresListPerfect (classifyMedicalImagePerfect ⟨0, 0, 0, 0, 0, 0, 0, 0, 0⟩
      zeroScores []).scores, e.2 = 0) ∧
    (classifyMedicalImagePerfect ⟨0, 0, 0, 0, 0, 0, 0, 0, 0⟩ zeroScores []).type = "brain-mri" :=
  ⟨by decide,
    claim1_all_zero_selects_first_declared.1 ⟨0, 0, 0, 0⟩ zeroScores emptyPathology (by decide),
    by decide,
    claim1_all_zero_selects_first_declared.2 ⟨0, 0, 0, 0, 0, 0, 0, 0, 0⟩ zeroScores [] (by decide)⟩

/-- Counterexample for C1 as stated: the uniform brightness-100 buffer with a
keyword-free filename makes every rule contribution zero, yet the full
clinical pipeline classifies it as chest-xray, not unknown. -/
theorem claim1_counterexample :
    (∀ e ∈ scoresList (clinicalPipeline uniformBuf 8 4 noMatch).scores, e.2 = 0) ∧
    (clinicalPipeline uniformBuf 8 4 noMatch).type = "chest-xray" ∧
    ¬ ((clinicalPipeline uniformBuf 8 4 noMatch).type = "unknown") := by
  refine ⟨by decide, by decide, by decide⟩



/- The 256-bucket histogram makes the elaborator expand a 256-element range
whenever it tries to unfold the contrast computation during unification;
block the unfolding for the symbolic proofs below (the kernel is unaffected,
and reducibility is restored before the concrete evaluations at the end of
the file). -/
set_option allowUnsafeReducibility true in
attribute [irreducible] histogramOf

/-- Projection of the visual analyzer: the dark band fraction. -/
theorem visual_darkRatio (px : List Pixel) :
    (performAdvancedVisualAnalysis px).darkRatio =
      jsDivN (px.countP (fun p => decide (brightN p < 50))) px.length := rfl

/-- Projection of the visual analyzer: the medium band fraction. -/
theorem visual_mediumRatio (px : List Pixel) :
    (performAdvancedVisualAnalysis px).mediumRatio =
      jsDivN (px.countP (fun p => !decide (brightN p < 50) && !decide (200 < brightN p)))
        px.length := rfl

/-- Projection of the visual analyzer: the contrast variance. -/
theorem visual_contrastU (px : List Pixel) :
    (performAdvancedVisualAnalysis px).contrastU =
      calculateClinicalContrastU (histogramOf px) := rfl

/-- Projection of the visual analyzer: the pneumonia indicator rule. -/
theorem visual_pneumonia (px : List Pixel) :
    (performAdvancedVisualAnalysis px).pathologyIndicators.pneumonia =
      (oLT (performAdvancedVisualAnalysis px).darkRatio 0.6 &&
        contrastGtB (performAdvancedVisualAnalysis px).contrastU 0.4) := by
  rw [visual_darkRatio, visual_contrastU]
  rfl

/-- Projection of the visual analyzer: the cardiomegaly indicator rule. -/
theorem visual_cardiomegaly (px : List Pixel) :
    (performAdvancedVisualAnalysis px).pathologyIndicators.cardiomegaly =
      (oGT (performAdvancedVisualAnalysis px).mediumRatio 0.4 &&
        oGT (performAdvancedVisualAnalysis px).brightness 100) := by
  rw [visual_mediumRatio]
  rfl

/-- Projection of the visual analyzer: the pleural effusion indicator rule. -/
theorem visual_pleural_effusion (px : List Pixel) :
    (performAdvancedVisualAnalysis px).pathologyIndicators.pleural_effusion =
      (oGT (performAdvancedVisualAnalysis px).darkRatio 0.8 &&
        contrastLtB (performAdvancedVisualAnalysis px).contrastU 0.3) := by
  rw [visual_darkRatio, visual_contrastU]
  rfl

/-- Projection of the visual analyzer: the normal-chest indicator rule. -/
theorem visual_normal_chest (px : List Pixel) :
    (performAdvancedVisualAnalysis px).pathologyIndicators.normal_chest =
      (oGT (performAdvancedVisualAnalysis px).darkRatio 0.6 &&
        oLT (performAdvancedVisualAnalysis px).darkRatio 0.8 &&
        contrastGtB (performAdvancedVisualAnalysis px).contrastU 0.3) := by
  rw [visual_darkRatio, visual_contrastU]
  rfl

/-- Projection of the visual analyzer: the low-contrast feature flag. -/
theorem visual_hasLowContrast (px : List Pixel) :
    (performAdvancedVisualAnalysis px).clinicalFeatures.hasLowContrast =
      (!contrastGtB (performAdvancedVisualAnalysis px).contrastU 0.3) := by
  rw [visual_contrastU]
  rfl

/-- From darkRatio in (0.6, 0.8) and contrast above 0.3, the visual
analyzer's pathology indicators resolve: pneumonia, cardiomegaly and pleural
effusion are off and normal-chest is on. The cardiomegaly exclusion uses that
the three band counts partition the pixels, so the medium fraction stays
below 1 - darkRatio < 0.4. -/
theorem visual_normal_band_indicators (px : List Pixel) (d : ℚ)
    (hdr : (performAdvancedVisualAnalysis px).darkRatio = some d)
    (hd1 : (0.6 : ℚ) < d) (hd2 : d < (0.8 : ℚ))
    (hc : contrastGtB (performAdvancedVisualAnalysis px).contrastU 0.3 = true) :
    (performAdvancedVisualAnalysis px).pathologyIndicators.pneumonia = false ∧
    (performAdvancedVisualAnalysis px).pathologyIndicators.cardiomegaly = false ∧
    (performAdvancedVisualAnalysis px).pathologyIndicators.pleural_effusion = false ∧
    (performAdvancedVisualAnalysis px).pathologyIndicators.normal_chest = true := by
  have hn : px.length ≠ 0 := by
    intro h0
    rw [visual_darkRatio] at hdr
    unfold jsDivN at hdr
    rw [if_pos h0] at hdr
    simp at hdr
  have hnq : ((px.length : ℚ)) ≠ 0 := Nat.cast_ne_zero.2 hn
  have hnpos : (0 : ℚ) < px.length := by
    have := Nat.pos_of_ne_zero hn
    exact_mod_cast this
  have hdval : (px.countP (fun p => decide (brightN p < 50)) : ℚ) / px.length = d := by
    have hsome : (performAdvancedVisualAnalysis px).darkRatio =
        some ((px.countP (fun p => decide (brightN p < 50)) : ℚ) / px.length) := by
      rw [visual_darkRatio, jsDivN_of_ne_zero _ _ hn]
    have h2 := hsome.symm.trans hdr
    injection h2
  refine ⟨?_, ?_, ?_, ?_⟩
  · rw [visual_pneumonia, hdr, oLT_some]
    have hdec : decide (d < (0.6 : ℚ)) = false := by
      simp only [decide_eq_false_iff_not]
      exact not_lt.2 (le_of_lt hd1)
    rw [hdec, Bool.false_and]
  · have hmval : (performAdvancedVisualAnalysis px).mediumRatio =
        some ((px.countP (fun p => !decide (brightN p < 50) && !decide (200 < brightN p)) : ℚ) /
          px.length) := by
      rw [visual_mediumRatio, jsDivN_of_ne_zero _ _ hn]
    rw [visual_cardiomegaly, hmval, oGT_some]
    suffices hno : ¬ ((0.4 : ℚ) <
        (px.countP (fun p => !decide (brightN p < 50) && !decide (200 < brightN p)) : ℚ) /
          px.length) by
      rw [decide_eq_false hno, Bool.false_and]
    intro h04
    have hsplit := countP_three_split px (fun p => decide (brightN p < 50))
      (fun p => decide (200 < brightN p))
    have hcast : (px.countP (fun p => decide (brightN p < 50)) : ℚ) +
        (px.countP (fun p => !decide (brightN p < 50) && decide (200 < brightN p)) : ℚ) +
        (px.countP (fun p => !decide (brightN p < 50) && !decide (200 < brightN p)) : ℚ) =
        (px.length : ℚ) := by
      exact_mod_cast congrArg (fun k : ℕ => (k : ℚ)) hsplit
    have hbc : (0 : ℚ) ≤
        (px.countP (fun p => !decide (brightN p < 50) && decide (200 < brightN p)) : ℚ) := by
      positivity
    have h1 : (0.4 : ℚ) * px.length <
        (px.countP (fun p => !decide (brightN p < 50) && !decide (200 < brightN p)) : ℚ) := by
      rwa [lt_div_iff₀ hnpos] at h04
    have h2 : (0.6 : ℚ) * px.length <
        (px.countP (fun p => decide (brightN p < 50)) : ℚ) := by
      have h3 : (0.6 : ℚ) <
          (px.countP (fun p => decide (brightN p < 50)) : ℚ) / px.length := by
        rw [hdval]
        exact hd1
      rwa [lt_div_iff₀ hnpos] at h3
    nlinarith [hbc, hcast]
  · rw [visual_pleural_effusion, hdr, oGT_some]
    have hdec : decide ((0.8 : ℚ) < d) = false := by
      simp only [decide_eq_false_iff_not]
      exact not_lt.2 (le_of_lt hd2)
    rw [hdec, Bool.false_and]
  · rw [visual_normal_chest, hdr, oGT_some, oLT_some, hc]
    simp [hd1, hd2]

/-- When the normal-chest indicator fired and pneumonia, cardiomegaly and
pleural effusion did not, and darkRatio keeps pneumothorax and emphysema off,
the entry normal = 0.9 strictly dominates every other pathology score, so it
heads the sorted top list and turns the hasPathology flag on. -/
theorem detect_top_normal (v : VisualAnalysis) (d : ℚ)
    (hdr : v.darkRatio = some d) (hd1 : (0.6 : ℚ) < d) (hd2 : d < (0.8 : ℚ))
    (hpn : v.pathologyIndicators.pneumonia = false)
    (hca : v.pathologyIndicators.cardiomegaly = false)
    (hpe : v.pathologyIndicators.pleural_effusion = false)
    (hnc : v.pathologyIndicators.normal_chest = true) :
    (detectPathologies v).pathologies.normal = 0.9 ∧
    (detectPathologies v).topPathologies.head? = some ("normal", 0.9) ∧
    ("normal", (0.9 : ℚ)) ∈ (detectPathologies v).topPathologies ∧
    (detectPathologies v).hasPathology = true := by
  have hpt : oGT v.darkRatio 0.9 = false := by
    rw [hdr, oGT_some]
    simp only [decide_eq_false_iff_not]
    intro hlt
    norm_num at hlt
    linarith
  have hem : oLT v.darkRatio 0.4 = false := by
    rw [hdr, oLT_some]
    simp only [decide_eq_false_iff_not]
    intro hlt
    norm_num at hlt
    linarith
  cases hA : v.pathologyIndicators.atelectasis <;>
    cases hN : (contrastGtB v.contrastU 0.7 && oGT v.edgeDensity 0.5) <;>
      · simp only [detectPathologies, hpn, hca, hpe, hnc, hA, hN, hpt, hem,
          Bool.false_and, Bool.and_false, Bool.true_and, Bool.and_true,
          if_true, if_false]
        decide

/-- A pathology result whose top entry is the normal condition earns no
chest-xray correlation bonus, whatever the flag says. -/
theorem pathologyBonus_of_head_normal (pa : PathologyResult)
    (hhead : pa.topPathologies.head? = some ("normal", (0.9 : ℚ))) :
    pathologyBonus pa = 0 := by
  rcases hl : pa.topPathologies with _ | ⟨e0, t⟩
  · rw [hl] at hhead
    simp at hhead
  · rw [hl] at hhead
    simp only [List.head?_cons, Option.some.injEq] at hhead
    subst hhead
    unfold pathologyBonus
    rw [hl]
    cases hh : pa.hasPathology
    · rfl
    · show (if chestConditions.contains ("normal") then (0.15 : ℚ) else 0) = 0
      decide

/-- C10: darkRatio in (0.6, 0.8) with contrast above 0.3 scores the normal
entry at 0.9, which therefore appears in topPathologies, heads it, and sets
the hasPathology flag even though the image was judged normal. -/
theorem claim10_normal_entry_flags_pathology (px : List Pixel) (d : ℚ)
    (hdr : (performAdvancedVisualAnalysis px).darkRatio = some d)
    (hd1 : (0.6 : ℚ) < d) (hd2 : d < (0.8 : ℚ))
    (hc : contrastGtB (performAdvancedVisualAnalysis px).contrastU 0.3 = true) :
    (detectPathologies (performAdvancedVisualAnalysis px)).pathologies.normal = 0.9 ∧
    ("normal", (0.9 : ℚ)) ∈
      (detectPathologies (performAdvancedVisualAnalysis px)).topPathologies ∧
    (detectPathologies (performAdvancedVisualAnalysis px)).topPathologies.head? =
      some ("normal", 0.9) ∧
    (detectPathologies (performAdvancedVisualAnalysis px)).hasPathology = true := by
  obtain ⟨hpn, hca, hpe, hnc⟩ := visual_normal_band_indicators px d hdr hd1 hd2 hc
  obtain ⟨h1, h2, h3, h4⟩ := detect_top_normal (performAdvancedVisualAnalysis px) d hdr hd1 hd2
    hpn hca hpe hnc
  exact ⟨h1, h3, h2, h4⟩

/-- Projection of the structural analyzer: the aspect ratio. -/
theorem struct_aspectRatio (px : List Pixel) (w h : ℕ) :
    (analyzeAnatomicalStructure px w h).aspectRatio = (w : ℚ) / (h : ℚ) := rfl

/-- An aspect ratio above 1.2 turns off every anatomical flag except the
chest one. -/
theorem anatomical_flags_of_wide (px : List Pixel) (w h : ℕ)
    (ha1 : (1.2 : ℚ) < (analyzeAnatomicalStructure px w h).aspectRatio) :
    (analyzeAnatomicalStructure px w h).anatomicalFeatures.isBrainMRI = false ∧
    (analyzeAnatomicalStructure px w h).anatomicalFeatures.isCTScan = false ∧
    (analyzeAnatomicalStructure px w h).anatomicalFeatures.isSpineXray = false ∧
    (analyzeAnatomicalStructure px w h).anatomicalFeatures.isMammography = false := by
  rw [struct_aspectRatio] at ha1
  refine ⟨?_, ?_, ?_, ?_⟩
  · show (decide (|(w : ℚ) / (h : ℚ) - 1| < 0.2) &&
      decide (0.7 < calculateBilateralSymmetry px w h)) = false
    have hno : ¬ (|(w : ℚ) / (h : ℚ) - 1| < 0.2) := by
      intro habs
      rcases abs_lt.1 habs with ⟨_, h2x⟩
      norm_num at h2x ha1
      linarith
    rw [decide_eq_false hno, Bool.false_and]
  · show decide (|(w : ℚ) / (h : ℚ) - 1| < 0.15) = false
    have hno : ¬ (|(w : ℚ) / (h : ℚ) - 1| < 0.15) := by
      intro habs
      rcases abs_lt.1 habs with ⟨_, h2x⟩
      norm_num at h2x ha1
      linarith
    exact decide_eq_false hno
  · show decide ((w : ℚ) / (h : ℚ) < 0.6) = false
    have hno : ¬ ((w : ℚ) / (h : ℚ) < 0.6) := by
      intro habs
      norm_num at habs ha1
      linarith
    exact decide_eq_false hno
  · show (decide ((w : ℚ) / (h : ℚ) < 0.8) && decide (0.4 < (w : ℚ) / (h : ℚ))) = false
    have hno : ¬ ((w : ℚ) / (h : ℚ) < 0.8) := by
      intro habs
      norm_num at habs ha1
      linarith
    rw [decide_eq_false hno, Bool.false_and]

/-- Under the C3 hypotheses every clinical classification score except the
chest-xray and bone-xray ones is zero, and those two are nonnegative. -/
theorem clinical_scores_of_wide (px : List Pixel) (w h : ℕ)
    (ha1 : (1.2 : ℚ) < (analyzeAnatomicalStructure px w h).aspectRatio)
    (hc : contrastGtB (performAdvancedVisualAnalysis px).contrastU 0.3 = true) :
    (performClinicalClassification px w h).brainMri = 0 ∧
    (performClinicalClassification px w h).ctScan = 0 ∧
    (performClinicalClassification px w h).ultrasound = 0 ∧
    (performClinicalClassification px w h).abdominalCt = 0 ∧
    (performClinicalClassification px w h).mammography = 0 ∧
    (performClinicalClassification px w h).dentalXray = 0 ∧
    (performClinicalClassification px w h).spineXray = 0 ∧
    0 ≤ (performClinicalClassification px w h).chestXray ∧
    0 ≤ (performClinicalClassification px w h).boneXray := by
  obtain ⟨hBM, hCT, hSP, hMA⟩ := anatomical_flags_of_wide px w h ha1
  have hLC : (performAdvancedVisualAnalysis px).clinicalFeatures.hasLowContrast = false := by
    rw [visual_hasLowContrast, hc]
    rfl
  refine ⟨?_, ?_, ?_, ?_, ?_, rfl, ?_, ?_, ?_⟩
  · show (if ((analyzeAnatomicalStructure px w h).anatomicalFeatures.isBrainMRI &&
        (performAdvancedVisualAnalysis px).clinicalFeatures.isMedium &&
        (analyzeAnatomicalStructure px w h).clinicalPositioning.hasGoodSymmetry)
      then (0.93 : ℚ) else 0) = 0
    rw [hBM]
    simp
  · show (if ((analyzeAnatomicalStructure px w h).anatomicalFeatures.isCTScan &&
        (performAdvancedVisualAnalysis px).clinicalFeatures.isMedium &&
        (performTextureAnalysis px w h).clinicalTexture.isNormal)
      then (0.9 : ℚ) else 0) = 0
    rw [hCT]
    simp
  · show (if ((performAdvancedVisualAnalysis px).clinicalFeatures.isDark &&
        (performAdvancedVisualAnalysis px).clinicalFeatures.hasLowContrast &&
        (performTextureAnalysis px w h).patterns.contains ("noisy"))
      then (0.85 : ℚ) else 0) = 0
    rw [hLC]
    simp
  · show (if ((analyzeAnatomicalStructure px w h).anatomicalFeatures.isCTScan &&
        (performAdvancedVisualAnalysis px).clinicalFeatures.isMedium &&
        (performTextureAnalysis px w h).clinicalTexture.isNormal)
      then (0.4 : ℚ) else 0) = 0
    rw [hCT]
    simp
  · show (if ((analyzeAnatomicalStructure px w h).anatomicalFeatures.isMammography &&
        (performAdvancedVisualAnalysis px).clinicalFeatures.isMedium &&
        (performAdvancedVisualAnalysis px).clinicalFeatures.hasHighContrast)
      then (0.87 : ℚ) else 0) = 0
    rw [hMA]
    simp
  · show (if ((analyzeAnatomicalStructure px w h).anatomicalFeatures.isSpineXray &&
        (performAdvancedVisualAnalysis px).clinicalFeatures.hasHighContrast &&
        oGT (performAdvancedVisualAnalysis px).edgeDensity 0.4)
      then (0.86 : ℚ) else 0) = 0
    rw [hSP]
    simp
  · show (0 : ℚ) ≤ (if ((performAdvancedVisualAnalysis px).clinicalFeatures.isDark &&
        (performAdvancedVisualAnalysis px).clinicalFeatures.hasHighContrast &&
        (analyzeAnatomicalStructure px w h).anatomicalFeatures.isChestXray &&
        oGT (performAdvancedVisualAnalysis px).edgeDensity 0.25)
      then (0.95 : ℚ) else 0)
    split <;> norm_num
  · show (0 : ℚ) ≤ (if ((performAdvancedVisualAnalysis px).clinicalFeatures.hasHighContrast &&
        oGT (performAdvancedVisualAnalysis px).brightRatio 0.15 &&
        (performTextureAnalysis px w h).clinicalTexture.isComplex)
      then (0.88 : ℚ) else 0)
    split <;> norm_num

/-- In a score record whose only possibly positive entries are chest-xray
and bone-xray, with bone-xray dominated by chest-xray, the arg-max search
returns chest-xray (the first declared key attains the maximum). -/
theorem find_first_max (s : ClassificationScores)
    (h2 : s.brainMri = 0) (h3 : s.ctScan = 0) (h4 : s.ultrasound = 0)
    (h5 : s.abdominalCt = 0) (h6 : s.mammography = 0) (h7 : s.dentalXray = 0)
    (h8 : s.spineXray = 0) (h10 : 0 ≤ s.boneXray)
    (h11 : s.boneXray ≤ s.chestXray) :
    (((scoresList s).find? (fun e => decide (e.2 = maxScoreOf s))).map Prod.fst).getD
      ("unknown") = "chest-xray" := by
  have hmax : maxScoreOf s = s.chestXray := by
    unfold maxScoreOf
    rw [h2, h3, h4, h5, h6, h7, h8]
    simp only [max_self]
    rw [max_eq_left h10, max_eq_right h10, max_eq_right h10, max_eq_right h10,
      max_eq_left h11]
  rw [hmax]
  simp [scoresList, List.find?]

/-- The clinical ensemble selects chest-xray whenever the filename
contributed nothing, the pathology bonus is zero, every other clinical rule
is off, and the bone rule does not beat the chest rule. -/
theorem classify_selects_chest (fms : FilenameScores) (cl : ClassificationScores)
    (pa : PathologyResult)
    (hf1 : fms.chest = 0) (hf2 : fms.brain = 0) (hf3 : fms.ct = 0) (hf4 : fms.bone = 0)
    (hb : pathologyBonus pa = 0)
    (h2 : cl.brainMri = 0) (h3 : cl.ctScan = 0) (h4 : cl.ultrasound = 0)
    (h5 : cl.abdominalCt = 0) (h6 : cl.mammography = 0) (h7 : cl.dentalXray = 0)
    (h8 : cl.spineXray = 0) (h10 : 0 ≤ cl.boneXray) (h11 : cl.boneXray ≤ cl.chestXray) :
    (classifyMedicalImageClinical fms cl pa).type = "chest-xray" := by
  have htype : (classifyMedicalImageClinical fms cl pa).type =
      (((scoresList (classifyMedicalImageClinical fms cl pa).scores).find?
        (fun e => decide (e.2 =
          maxScoreOf (classifyMedicalImageClinical fms cl pa).scores))).map
        Prod.fst).getD ("unknown") := rfl
  rw [htype]
  apply find_first_max
  · show fms.brain * 0.2 + cl.brainMri * 0.6 = 0
    rw [hf2, h2]
    norm_num
  · show fms.ct * 0.12 + cl.ctScan * 0.6 = 0
    rw [hf3, h3]
    norm_num
  · show cl.ultrasound * 0.6 = 0
    rw [h4]
    norm_num
  · show fms.ct * 0.08 + cl.abdominalCt * 0.6 = 0
    rw [hf3, h5]
    norm_num
  · show cl.mammography * 0.6 = 0
    rw [h6]
    norm_num
  · show cl.dentalXray * 0.6 = 0
    rw [h7]
    norm_num
  · show fms.bone * 0.05 + cl.spineXray * 0.6 = 0
    rw [hf4, h8]
    norm_num
  · show (0 : ℚ) ≤ fms.bone * 0.15 + cl.boneXray * 0.6
    rw [hf4]
    nlinarith [h10]
  · show fms.bone * 0.15 + cl.boneXray * 0.6 ≤
      fms.chest * 0.2 + cl.chestXray * 0.6 + pathologyBonus pa
    rw [hf4, hf1, hb]
    nlinarith [h11]

/-- C3 amended: with no filename keyword, darkRatio in (0.6, 0.8), contrast
above 0.3, aspect ratio in (1.2, 1.8) and edge density above 0.25, the
clinical pipeline classifies chest-xray, provided the bone-xray rule score
does not exceed the chest-xray rule score; the excluded case (contrast above
0.6, brightRatio above 0.15 and roughness above 60 while the mean brightness
is at least 80) makes bone-xray win instead. -/
theorem claim3_chest_classification (px : List Pixel) (w h : ℕ) (m : FilenameMatches)
    (d e : ℚ) (hm : m = noMatch)
    (hdr : (performAdvancedVisualAnalysis px).darkRatio = some d)
    (hd1 : (0.6 : ℚ) < d) (hd2 : d < (0.8 : ℚ))
    (hc : contrastGtB (performAdvancedVisualAnalysis px).contrastU 0.3 = true)
    (hed : (performAdvancedVisualAnalysis px).edgeDensity = some e)
    (he1 : (0.25 : ℚ) < e)
    (ha1 : (1.2 : ℚ) < (analyzeAnatomicalStructure px w h).aspectRatio)
    (ha2 : (analyzeAnatomicalStructure px w h).aspectRatio < (1.8 : ℚ))
    (hbone : (performClinicalClassification px w h).boneXray ≤
      (performClinicalClassification px w h).chestXray) :
    (clinicalPipeline px w h m).type = "chest-xray" := by
  subst hm
  obtain ⟨hpn, hca, hpe, hnc⟩ := visual_normal_band_indicators px d hdr hd1 hd2 hc
  obtain ⟨_, hhead, _, _⟩ := detect_top_normal (performAdvancedVisualAnalysis px) d hdr hd1
    hd2 hpn hca hpe hnc
  obtain ⟨g2, g3, g4, g5, g6, g7, g8, _, g10⟩ := clinical_scores_of_wide px w h ha1 hc
  have hbz : pathologyBonus (detectPathologies (performAdvancedVisualAnalysis px)) = 0 :=
    pathologyBonus_of_head_normal _ hhead
  show (classifyMedicalImageClinical (analyzeMedicalFilename noMatch)
    (performClinicalClassification px w h)
    (detectPathologies (performAdvancedVisualAnalysis px))).type = "chest-xray"
  exact classify_selects_chest _ _ _ rfl rfl rfl rfl hbz g2 g3 g4 g5 g6 g7 g8 g10 hbone

/-- On a well-formed buffer that mirrors about its vertical midline, every
sampled mirror pair is identical, so the mean similarity is exactly 1 as
soon as at least one pair is sampled (width at least 2, height at least 1). -/
theorem bilateralCore_eq_one (px : List Pixel) (w h step : ℕ) (hstep : 0 < step)
    (hlen : px.length = w * h) (hw : 2 ≤ w) (hh : 1 ≤ h)
    (hmir : ∀ y < h, ∀ x < w,
      brightnessAt px (y * w + x) = brightnessAt px (y * w + (w - 1 - x))) :
    bilateralCore px w h step = 1 := by
  unfold bilateralCore
  dsimp only
  set cells := ((stepRange h step).map (fun y =>
    (stepRange (w / 2) step).map (fun x => bilatSimAt px w y x))).flatten with hcells
  have hall : ∀ c ∈ cells, c = some (1 : ℚ) := by
    intro c hc
    rw [hcells] at hc
    simp only [List.mem_flatten, List.mem_map] at hc
    obtain ⟨_, ⟨y, hy, rfl⟩, hc⟩ := hc
    obtain ⟨x, hx, rfl⟩ := List.mem_map.1 hc
    have hy' : y < h := (mem_stepRange.1 hy).1
    have hx2 : x < w / 2 := (mem_stepRange.1 hx).1
    have hxw : x < w := lt_of_lt_of_le hx2 (Nat.div_le_self w 2)
    have hl1 : (y + 1) * w ≤ h * w := Nat.mul_le_mul_right w hy'
    have hl2 : (y + 1) * w = y * w + w := by ring
    have hl3 : w * h = h * w := Nat.mul_comm w h
    have hiL : y * w + x < px.length := by
      rw [hlen]
      omega
    have hiR : y * w + (w - 1 - x) < px.length := by
      rw [hlen]
      omega
    have hbL : brightnessAt px (y * w + x) = some (brightQ (px.get ⟨y * w + x, hiL⟩)) := by
      rw [brightnessAt, List.get?_eq_get hiL]
      rfl
    have hEq := hmir y hy' x hxw
    have hbR : brightnessAt px (y * w + (w - 1 - x)) =
        some (brightQ (px.get ⟨y * w + x, hiL⟩)) := by
      rw [← hEq]
      exact hbL
    unfold bilatSimAt
    rw [hbL, hbR]
    norm_num
  have h0y : 0 ∈ stepRange h step := mem_stepRange.2 ⟨by omega, Nat.zero_mod step⟩
  have h0x : 0 ∈ stepRange (w / 2) step := by
    refine mem_stepRange.2 ⟨?_, Nat.zero_mod step⟩
    have : 1 ≤ w / 2 := (Nat.one_le_div_iff (by norm_num)).2 hw
    omega
  have hne : cells ≠ [] := by
    intro hcontra
    have hmem : bilatSimAt px w 0 0 ∈ cells := by
      rw [hcells]
      simp only [List.mem_flatten, List.mem_map]
      exact ⟨(stepRange (w / 2) step).map (fun x => bilatSimAt px w 0 x),
        ⟨0, h0y, rfl⟩, List.mem_map_of_mem _ h0x⟩
    rw [hcontra] at hmem
    simp at hmem
  exact mean_of_ones cells hall hne

/-- C8 amended: a buffer of w by h pixels (w at least 2, h at least 1) that
mirrors exactly about its vertical midline scores bilateral symmetry exactly
1 in both profiles; a buffer too narrow to sample any mirror pair instead
falls back to 0, refuting the unconditional claim. -/
theorem claim8_mirror_symmetry_one (px : List Pixel) (w h : ℕ)
    (hlen : px.length = w * h) (hw : 2 ≤ w) (hh : 1 ≤ h)
    (hmir : ∀ y < h, ∀ x < w,
      brightnessAt px (y * w + x) = brightnessAt px (y * w + (w - 1 - x))) :
    calculateBilateralSymmetry px w h = 1 ∧ calculateSymmetryPerfect px w h = 1 :=
  ⟨bilateralCore_eq_one px w h 2 (by norm_num) hlen hw hh hmir,
    bilateralCore_eq_one px w h 3 (by norm_num) hlen hw hh hmir⟩

/-- Witness for the amended C8 at a concrete 4 by 2 mirrored buffer. -/
theorem claim8_mirror_symmetry_one_witness :
    (mirrorBuf.length = 4 * 2 ∧ 2 ≤ 4 ∧ 1 ≤ 2 ∧
      (∀ y < 2, ∀ x < 4,
        brightnessAt mirrorBuf (y * 4 + x) = brightnessAt mirrorBuf (y * 4 + (4 - 1 - x)))) ∧
    calculateBilateralSymmetry mirrorBuf 4 2 = 1 ∧ calculateSymmetryPerfect mirrorBuf 4 2 = 1 :=
  ⟨⟨by decide, by decide, by decide, by decide⟩,
    claim8_mirror_symmetry_one mirrorBuf 4 2 (by decide) (by decide) (by decide) (by decide)⟩

/-- Counterexample for C8 as stated: the single-pixel buffer is trivially
mirror symmetric, yet both symmetry scorers sample no pair and return 0. -/
theorem claim8_counterexample :
    (∀ y < 1, ∀ x < 1,
      brightnessAt onePixelBuf (y * 1 + x) = brightnessAt onePixelBuf (y * 1 + (1 - 1 - x))) ∧
    calculateBilateralSymmetry onePixelBuf 1 1 = 0 ∧
    calculateSymmetryPerfect onePixelBuf 1 1 = 0 ∧
    ((0 : ℚ) ≠ 1) := by
  refine ⟨by decide, by decide, by decide, by norm_num⟩

/- The symbolic proofs are done; restore the reducibility of the histogram
so the concrete evaluations below can run through decide. -/
set_option allowUnsafeReducibility true in
attribute [semireducible] histogramOf

set_option maxHeartbeats 4000000 in
/-- Witness for C10 at the concrete chest-like buffer (darkRatio 3/4,
contrast variance 195075/16). -/
theorem claim10_normal_entry_flags_pathology_witness :
    ((performAdvancedVisualAnalysis chestBuf).darkRatio = some (0.75 : ℚ) ∧
      (0.6 : ℚ) < 0.75 ∧ (0.75 : ℚ) < 0.8 ∧
      contrastGtB (performAdvancedVisualAnalysis chestBuf).contrastU 0.3 = true) ∧
    ((detectPathologies (performAdvancedVisualAnalysis chestBuf)).pathologies.normal = 0.9 ∧
      ("normal", (0.9 : ℚ)) ∈
        (detectPathologies (performAdvancedVisualAnalysis chestBuf)).topPathologies ∧
      (detectPathologies (performAdvancedVisualAnalysis chestBuf)).topPathologies.head? =
        some ("normal", 0.9) ∧
      (detectPathologies (performAdvancedVisualAnalysis chestBuf)).hasPathology = true) :=
  ⟨⟨by decide, by decide, by decide, by decide⟩,
    claim10_normal_entry_flags_pathology chestBuf 0.75 (by decide) (by decide) (by decide)
      (by decide)⟩

set_option maxHeartbeats 4000000 in
/-- Witness for the amended C3 at the concrete chest-like buffer: darkRatio
3/4, contrast above 0.6, aspect ratio 3/2, edge density 47/96, and the chest
rule dominates the bone rule. -/
theorem claim3_chest_classification_witness :
    (noMatch = noMatch ∧
      (performAdvancedVisualAnalysis chestBuf).darkRatio = some (0.75 : ℚ) ∧
      (0.6 : ℚ) < 0.75 ∧ (0.75 : ℚ) < 0.8 ∧
      contrastGtB (performAdvancedVisualAnalysis chestBuf).contrastU 0.3 = true ∧
      (performAdvancedVisualAnalysis chestBuf).edgeDensity = some ((47 : ℚ) / 96) ∧
      (0.25 : ℚ) < (47 : ℚ) / 96 ∧
      (1.2 : ℚ) < (analyzeAnatomicalStructure chestBuf 12 8).aspectRatio ∧
      (analyzeAnatomicalStructure chestBuf 12 8).aspectRatio < (1.8 : ℚ) ∧
      (performClinicalClassification chestBuf 12 8).boneXray ≤
        (performClinicalClassification chestBuf 12 8).chestXray) ∧
    (clinicalPipeline chestBuf 12 8 noMatch).type = "chest-xray" :=
  ⟨⟨rfl, by decide, by decide, by decide, by decide, by decide, by decide, by decide,
      by decide, by decide⟩,
    claim3_chest_classification chestBuf 12 8 noMatch 0.75 ((47 : ℚ) / 96) rfl (by decide)
      (by decide) (by decide) (by decide) (by decide) (by decide) (by decide) (by decide)
      (by decide)⟩

set_option maxHeartbeats 8000000 in
/-- Counterexample for C3 as stated: the bone-like buffer satisfies every
hypothesis of the claim (keyword-free filename, darkRatio 31/48, contrast
above 0.3, aspect ratio 3/2, edge density 9/32), yet its mean brightness
90.3125 fails the chest darkness test while contrast above 0.6, brightRatio
17/48 and roughness 111.5625 fire the bone rule, so the pipeline selects
bone-xray. -/
theorem claim3_counterexample :
    ((performAdvancedVisualAnalysis boneBuf).darkRatio = some ((31 : ℚ) / 48) ∧
      (0.6 : ℚ) < (31 : ℚ) / 48 ∧ (31 : ℚ) / 48 < (0.8 : ℚ) ∧
      contrastGtB (performAdvancedVisualAnalysis boneBuf).contrastU 0.3 = true ∧
      (performAdvancedVisualAnalysis boneBuf).edgeDensity = some ((9 : ℚ) / 32) ∧
      (0.25 : ℚ) < (9 : ℚ) / 32 ∧
      (1.2 : ℚ) < (analyzeAnatomicalStructure boneBuf 12 8).aspectRatio ∧
      (analyzeAnatomicalStructure boneBuf 12 8).aspectRatio < (1.8 : ℚ) ∧
      analyzeMedicalFilename noMatch = ⟨0, 0, 0, 0⟩) ∧
    (clinicalPipeline boneBuf 12 8 noMatch).type = "bone-xray" ∧
    ¬ ((clinicalPipeline boneBuf 12 8 noMatch).type = "chest-xray") :=
  ⟨⟨by decide, by decide, by decide, by decide, by decide, by decide, by decide, by decide,
      by decide⟩, by decide, by decide⟩
